import Mathlib

/-!
Verification development for the GDAY canopy module (`src/canopy.c`).

The half-hourly canopy flux engine is embedded shallowly:
* rational arithmetic (`ℚ`) models the double-precision driver, loop and
  aggregation code, keeping every definition executable;
* real arithmetic (`ℝ`) models the two transcendental leaf formulas
  (`calc_leaf_net_rad`, `calculate_top_of_canopy_leafn`);
* external collaborators (photosynthesis, the Penman wrapper, radiation,
  met unpacking, soil water) live in other files of the repository that are
  not part of the analysed sources, so they are passed in as an explicit
  bundle of oracle functions, faithful to the collaborator contracts of the
  specification.
-/

namespace GDAY

/-- Modelled from the spec: fixed unit-conversion constant (umol to mol);
the constants header is not among the analysed sources. -/
def UMOL_TO_MOL : ℚ := 1 / 1000000

/-- Modelled from the spec: fixed unit-conversion constant (mol C to grams C);
the constants header is not among the analysed sources. -/
def MOL_C_TO_GRAMS_C : ℚ := 12

/-- Modelled from the spec: half-hour duration constant in seconds;
the constants header is not among the analysed sources. -/
def SEC_2_HLFHR : ℚ := 1800

/-- Modelled from the spec: fixed unit-conversion constant (g C m-2 to
tonnes ha-1); the constants header is not among the analysed sources. -/
def GRAM_C_2_TONNES_HA : ℚ := 1 / 100

/-- Modelled from the spec: PAR to shortwave conversion constant;
the constants header is not among the analysed sources.  Its value never
matters for the claims below. -/
def PAR_2_SW : ℚ := 1 / 2

/-- Modelled from the spec: heat capacity constant used in the leaf
temperature update; the constants header is not among the analysed
sources.  Its value never matters for the claims below. -/
def CP : ℚ := 1010

/-- Modelled from the spec: molar-mass-of-air constant used in the leaf
temperature update; the constants header is not among the analysed
sources.  Its value never matters for the claims below. -/
def MASS_AIR : ℚ := 29 / 1000

/-- The two big-leaf classes (`SUNLIT` / `SHADED` indices in the C code). -/
inductive Leaf where
  | SUNLIT : Leaf
  | SHADED : Leaf
deriving DecidableEq, Repr

/-- A per-leaf array of doubles (`double x[NUM_LEAVES]` with
`NUM_LEAVES = 2` in the C code). -/
structure LeafArr where
  sunlit : ℚ
  shaded : ℚ
deriving DecidableEq, Repr

/-- Array read `x[i]`. -/
def LeafArr.get (a : LeafArr) : Leaf → ℚ
  | .SUNLIT => a.sunlit
  | .SHADED => a.shaded

/-- Array write `x[i] = v`. -/
def LeafArr.set (a : LeafArr) : Leaf → ℚ → LeafArr
  | .SUNLIT, v => { a with sunlit := v }
  | .SHADED, v => { a with shaded := v }

/-- The meteorological record for one half hour (`met` struct fields read
by `canopy.c`). -/
structure met where
  tair : ℚ
  vpd : ℚ
  Ca : ℚ
  press : ℚ
  sw_rad : ℚ
  par : ℚ
  tsoil : ℚ
deriving DecidableEq, Repr

/-- The flux accumulator fields touched by `canopy.c`
(`fluxes` struct; the full struct lives in a header that is not among the
analysed sources, so exactly the fields `canopy.c` reads or writes are
modelled). -/
structure fluxes where
  gpp_gCm2 : ℚ
  npp_gCm2 : ℚ
  gpp : ℚ
  npp : ℚ
  auto_resp : ℚ
  apar : ℚ
  gs_mol_m2_sec : ℚ
  omega : ℚ
deriving DecidableEq, Repr

/-- The parameter fields the rational part of the embedding needs. -/
structure params where
  cue : ℚ
deriving DecidableEq, Repr

/-- The state fields `canopy.c` writes directly. -/
structure state where
  wtfac_topsoil : ℚ
  wtfac_root : ℚ
deriving DecidableEq, Repr

/-- The photosynthesis pathway selector (`c->ps_pathway`). -/
inductive PsPathway where
  | C3 : PsPathway
  | C4 : PsPathway
deriving DecidableEq, Repr

/-- The control fields `canopy.c` reads. -/
structure control where
  ps_pathway : PsPathway
  num_hlf_hrs : ℕ
  water_stress : Bool
  hour_idx : ℕ
deriving DecidableEq, Repr

/-- The canopy workspace (`canopy_wk` struct fields used by `canopy.c`). -/
structure canopy_wk where
  elevation : ℚ
  diffuse_frac : ℚ
  leaf_idx : Leaf
  an_leaf : LeafArr
  gsc_leaf : LeafArr
  trans_leaf : LeafArr
  rnet_leaf : LeafArr
  apar_leaf : LeafArr
  omega_leaf : LeafArr
  tleaf : ℚ
  tleaf_new : ℚ
  Cs : ℚ
  dleaf : ℚ
  N0 : ℚ
  an_canopy : ℚ
  gsc_canopy : ℚ
  apar_canopy : ℚ
  trans_canopy : ℚ
  omega_canopy : ℚ
  rnet_canopy : ℚ
deriving DecidableEq, Repr

/-- Output bundle of the external Penman-style conductance/transpiration
collaborator (`penman_leaf_wrapper` out-parameters). -/
structure PenmanOut where
  transp : ℚ
  LE : ℚ
  gbc : ℚ
  gh : ℚ
  gv : ℚ
  omega : ℚ
deriving DecidableEq, Repr

/-- Modelled from the spec: the external collaborator contracts of §6 that
live outside the analysed sources (met unpacking, solar geometry, diffuse
fraction, radiation absorption, top-of-canopy nitrogen value, C3
photosynthesis, isothermal net radiation for the rational driver, the
Penman wrapper, soil water potential, the water balance and the soil
moisture stress factors).  They are supplied to the driver as a bundle of
pure functions. -/
structure extern_fns where
  unpack : ℕ → met → met
  solar : ℚ → ℕ → ℚ
  diffuse : ℚ → ℚ → ℚ
  absorbed : ℚ → LeafArr
  topleafn : ℚ
  photo : met → canopy_wk → ℚ × ℚ
  rnet_fn : met → ℚ → ℚ
  penman : met → ℚ → ℚ → ℚ → PenmanOut
  soil_water_pot : state → state
  water_bal : met → ℚ → ℚ → ℚ → ℚ → ℚ
  soil_water_fac : state → state
  zero_water : ℚ → ℚ

/-- `zero_carbon_day_fluxes` from `canopy.c`: resets the six day-total
carbon accumulators. -/
def zero_carbon_day_fluxes (f : fluxes) : fluxes :=
  { f with gpp_gCm2 := 0, npp_gCm2 := 0, gpp := 0, npp := 0,
           auto_resp := 0, apar := 0 }

/-- `zero_hourly_fluxes` from `canopy.c`: resets every per-leaf flux array. -/
def zero_hourly_fluxes (cw : canopy_wk) : canopy_wk :=
  { cw with an_leaf := ⟨0, 0⟩, gsc_leaf := ⟨0, 0⟩, trans_leaf := ⟨0, 0⟩,
            rnet_leaf := ⟨0, 0⟩, apar_leaf := ⟨0, 0⟩, omega_leaf := ⟨0, 0⟩ }

/-- `scale_to_canopy` from `canopy.c`: canopy totals from the two leaves. -/
def scale_to_canopy (cw : canopy_wk) : canopy_wk :=
  { cw with
      an_canopy := cw.an_leaf.sunlit + cw.an_leaf.shaded,
      gsc_canopy := cw.gsc_leaf.sunlit + cw.gsc_leaf.shaded,
      apar_canopy := cw.apar_leaf.sunlit + cw.apar_leaf.shaded,
      trans_canopy := cw.trans_leaf.sunlit + cw.trans_leaf.shaded,
      omega_canopy := (cw.omega_leaf.sunlit + cw.omega_leaf.shaded) / 2,
      rnet_canopy := cw.rnet_leaf.sunlit + cw.rnet_leaf.shaded }

/-- `sum_hourly_carbon_fluxes` from `canopy.c`: half-hourly accumulation
into the day totals. -/
def sum_hourly_carbon_fluxes (cw : canopy_wk) (f : fluxes) (p : params) :
    fluxes :=
  let gpp_gCm2 :=
    f.gpp_gCm2 + cw.an_canopy * UMOL_TO_MOL * MOL_C_TO_GRAMS_C * SEC_2_HLFHR
  let npp_gCm2 := gpp_gCm2 * p.cue
  let gpp := gpp_gCm2 * GRAM_C_2_TONNES_HA
  let npp := npp_gCm2 * GRAM_C_2_TONNES_HA
  { f with
      gpp_gCm2 := gpp_gCm2,
      npp_gCm2 := npp_gCm2,
      gpp := gpp,
      npp := npp,
      auto_resp := gpp - npp,
      apar := f.apar + cw.apar_canopy,
      gs_mol_m2_sec := f.gs_mol_m2_sec + cw.gsc_canopy }

/-- `initialise_leaf_surface` from `canopy.c`. -/
def initialise_leaf_surface (cw : canopy_wk) (m : met) : canopy_wk :=
  { cw with tleaf := m.tair, dleaf := m.vpd, Cs := m.Ca }

/-- The assignment of the photosynthesis collaborator's outputs into the
workspace (effect of `photosynthesis_C3(c, cw, m, p, s)` on
`an_leaf[leaf_idx]` and `gsc_leaf[leaf_idx]`). -/
def photoSet (E : extern_fns) (m : met) (cw : canopy_wk) : canopy_wk :=
  { cw with
      an_leaf := cw.an_leaf.set cw.leaf_idx (E.photo m cw).1,
      gsc_leaf := cw.gsc_leaf.set cw.leaf_idx (E.photo m cw).2 }

/-- `solve_leaf_energy_balance` from `canopy.c`, with the isothermal net
radiation and the Penman wrapper supplied by the oracle bundle. -/
def solve_leaf_energy_balance (E : extern_fns) (m : met) (cw : canopy_wk) :
    canopy_wk :=
  let idx := cw.leaf_idx
  let sw_rad := cw.apar_leaf.get idx * PAR_2_SW
  let rnet := E.rnet_fn m sw_rad
  let po := E.penman m cw.tleaf rnet (cw.gsc_leaf.get idx)
  let Tdiff := (rnet - po.LE) / (CP * MASS_AIR * po.gh)
  { cw with
      rnet_leaf := cw.rnet_leaf.set idx rnet,
      trans_leaf := cw.trans_leaf.set idx po.transp,
      omega_leaf := cw.omega_leaf.set idx po.omega,
      tleaf_new := m.tair + Tdiff / 4,
      Cs := m.Ca - cw.an_leaf.get idx / po.gbc,
      dleaf := po.transp * m.press / po.gv }

/-- The iteration-counter ceiling (`itermax = 100` in `canopy()`). -/
def itermax : ℕ := 100

/-- Outcomes of `exit(EXIT_FAILURE)` in `canopy()`: the unimplemented C4
pathway and leaf-temperature non-convergence. -/
inductive RunError where
  | C4NotImplemented : RunError
  | NoConvergence : RunError
deriving DecidableEq, Repr

/-- The body of the `while (TRUE)` leaf temperature loop in `canopy()`,
written with explicit fuel so that it is structurally recursive.  The fuel
is only a recursion bound: the loop itself always terminates through one
of its own exits (non-photosynthesis, the `iter >= itermax` failure, or
convergence), and `leafLoop` below instantiates the fuel so that the
fuel-exhaustion branch is unreachable.  Errors carry the workspace and the
iteration counter at the exit point. -/
def leafLoopGo (E : extern_fns) (pw : PsPathway) (m : met) :
    ℕ → canopy_wk → ℕ → Except (RunError × canopy_wk × ℕ) (canopy_wk × ℕ)
  | fuel, cw, iter =>
    match pw with
    | .C4 => .error (.C4NotImplemented, cw, iter)
    | .C3 =>
      let cw1 := photoSet E m cw
      if (1 : ℚ) / 10000 < cw1.an_leaf.get cw1.leaf_idx then
        let cw2 := solve_leaf_energy_balance E m cw1
        if itermax ≤ iter then .error (.NoConvergence, cw2, iter)
        else if |cw2.tleaf - cw2.tleaf_new| < 1 / 50 then .ok (cw2, iter)
        else
          match fuel with
          | 0 => .error (.NoConvergence, cw2, iter)
          | fuel + 1 =>
              leafLoopGo E pw m fuel { cw2 with tleaf := cw2.tleaf_new }
                (iter + 1)
      else .ok (cw1, iter)

/-- The leaf temperature loop of `canopy()` for one leaf class, entered at
iteration counter `iter` (the counter is NOT owned by the loop: it is the
single `iter` variable of `canopy()`). -/
def leafLoop (E : extern_fns) (pw : PsPathway) (m : met) (cw : canopy_wk)
    (iter : ℕ) : Except (RunError × canopy_wk × ℕ) (canopy_wk × ℕ) :=
  leafLoopGo E pw m (itermax + 1 - iter) cw iter

/-- One pass of the loop body as a pure state transformer: run
photosynthesis, solve the energy balance, adopt the candidate temperature
(the `cw->tleaf = cw->tleaf_new` update). -/
def loopNext (E : extern_fns) (m : met) (cw : canopy_wk) : canopy_wk :=
  let cw2 := solve_leaf_energy_balance E m (photoSet E m cw)
  { cw2 with tleaf := cw2.tleaf_new }

/-- The trajectory of the loop body: the workspace after `k` adopted
iterations. -/
def loopIter (E : extern_fns) (m : met) : ℕ → canopy_wk → canopy_wk
  | 0, cw => cw
  | k + 1, cw => loopIter E m k (loopNext E m cw)

/-- The convergence residual tested by the loop:
`fabs(cw->tleaf - cw->tleaf_new)` after the energy-balance solve. -/
def residual (E : extern_fns) (m : met) (cw : canopy_wk) : ℚ :=
  |(solve_leaf_energy_balance E m (photoSet E m cw)).tleaf -
    (solve_leaf_energy_balance E m (photoSet E m cw)).tleaf_new|

/-- The sunlit/shaded loop of `canopy()`: solve the sunlit leaf, then the
shaded leaf, threading the shared iteration counter. -/
def leaf_solves (E : extern_fns) (pw : PsPathway) (m : met) (cw : canopy_wk)
    (iter : ℕ) : Except (RunError × canopy_wk × ℕ) (canopy_wk × ℕ) :=
  match leafLoop E pw m
      (initialise_leaf_surface { cw with leaf_idx := .SUNLIT } m) iter with
  | .error e => .error e
  | .ok (cw1, i1) =>
      leafLoop E pw m
        (initialise_leaf_surface { cw1 with leaf_idx := .SHADED } m) i1

/-- The driver state threaded through the half-hour loop of `canopy()`:
the workspace, the flux accumulator, the plant/soil state, the met record,
the shared iteration counter, the met index and the sunlight-hour
counter. -/
structure DriverSt where
  cw : canopy_wk
  f : fluxes
  s : state
  m : met
  iter : ℕ
  hour_idx : ℕ
  sunlight_hrs : ℕ
deriving DecidableEq, Repr

/-- The tail of each half hour in `canopy()` (common to both branches):
scale to canopy, accumulate carbon fluxes, invoke the water balance,
advance the met index, and increment `sunlight_hrs` (the increment sits
after the branch in the C code, so it runs every half hour). -/
def halfhour_tail (E : extern_fns) (p : params) (m1 : met) (st : DriverSt)
    (cw : canopy_wk) (i : ℕ) (s : state) : DriverSt :=
  let cw' := scale_to_canopy cw
  let f' := sum_hourly_carbon_fluxes cw' st.f p
  let f2 := { f' with
    omega := E.water_bal m1 cw'.trans_canopy cw'.omega_canopy
      cw'.rnet_canopy f'.omega }
  { cw := cw', f := f2, s := s, m := m1, iter := i,
    hour_idx := st.hour_idx + 1, sunlight_hrs := st.sunlight_hrs + 1 }

/-- The workspace preparation of a sun-up half hour: store the solar
elevation and diffuse fraction (`calculate_solar_geometry` /
`get_diffuse_frac`), the absorbed per-leaf PAR
(`calculate_absorbed_radiation`) and the top-of-canopy nitrogen
(`calculate_top_of_canopy_leafn`). -/
def sunPrep (E : extern_fns) (doy : ℚ) (hod : ℕ) (m1 : met)
    (cw : canopy_wk) : canopy_wk :=
  { cw with
      elevation := E.solar doy hod, diffuse_frac := E.diffuse doy m1.sw_rad,
      apar_leaf := E.absorbed m1.par, N0 := E.topleafn }

/-- One half hour of the day loop in `canopy()`: unpack the met record,
compute solar geometry and the diffuse fraction, then either run the
two-leaf solves (sun up: elevation > 0 and PAR > 20) or zero the hourly
fluxes (and at `hod == 10` invoke the soil-water-potential collaborator),
and finish with the common tail. -/
def halfhour (E : extern_fns) (c : control) (p : params) (doy : ℚ)
    (hod : ℕ) (st : DriverSt) : Except (RunError × DriverSt) DriverSt :=
  let m1 := E.unpack st.hour_idx st.m
  if (0 : ℚ) < E.solar doy hod ∧ (20 : ℚ) < m1.par then
    match leaf_solves E c.ps_pathway m1 (sunPrep E doy hod m1 st.cw)
        st.iter with
    | .error (e, cwE, iE) =>
        .error (e, { st with cw := cwE, m := m1, iter := iE })
    | .ok (cw2, i2) => .ok (halfhour_tail E p m1 st cw2 i2 st.s)
  else
    let cw1 := zero_hourly_fluxes { st.cw with
      elevation := E.solar doy hod, diffuse_frac := E.diffuse doy m1.sw_rad }
    let s1 := if hod = 10 then E.soil_water_pot st.s else st.s
    .ok (halfhour_tail E p m1 st cw1 st.iter s1)

/-- The `for (hod = 0; hod < num_hlf_hrs; hod++)` loop of `canopy()`,
over an explicit list of half-hour indices. -/
def dayloop (E : extern_fns) (c : control) (p : params) (doy : ℚ) :
    List ℕ → DriverSt → Except (RunError × DriverSt) DriverSt
  | [], st => .ok st
  | hod :: rest, st =>
    match halfhour E c p doy hod st with
    | .error e => .error e
    | .ok st' => dayloop E c p doy rest st'

/-- The `canopy` driver from `canopy.c`: zero the day accumulators, run
the half-hour loop, then finalize the day (divide accumulated omega by
`sunlight_hrs`, divide accumulated soil temperature by the half-hour
count, and either invoke the soil-moisture-stress collaborator or force
both stress factors to 1). -/
def canopy (E : extern_fns) (c : control) (p : params) (doyArr : ℕ → ℚ)
    (f0 : fluxes) (s0 : state) (m0 : met) (cw0 : canopy_wk) :
    Except (RunError × DriverSt) DriverSt :=
  let f1 := zero_carbon_day_fluxes f0
  let f2 := { f1 with omega := E.zero_water f1.omega }
  let doy := doyArr c.hour_idx
  let st0 : DriverSt :=
    { cw := cw0, f := f2, s := s0, m := m0, iter := 0,
      hour_idx := c.hour_idx, sunlight_hrs := 0 }
  match dayloop E c p doy (List.range c.num_hlf_hrs) st0 with
  | .error e => .error e
  | .ok st =>
    let f3 := { st.f with omega := st.f.omega / (st.sunlight_hrs : ℚ) }
    let m1 := { st.m with tsoil := st.m.tsoil / (c.num_hlf_hrs : ℚ) }
    let s1 :=
      if c.water_stress then E.soil_water_fac st.s
      else { st.s with wtfac_topsoil := 1, wtfac_root := 1 }
    .ok { st with f := f3, m := m1, s := s1 }

/-- Projection of a driver outcome onto the error kind, the iteration
counter and the sunlight-hour counter at the exit point (`none` when the
run completed). -/
def errData : Except (RunError × DriverSt) DriverSt →
    Option (RunError × ℕ × ℕ)
  | .error (e, st) => some (e, st.iter, st.sunlight_hrs)
  | .ok _ => none

/-- Projection of a completed driver outcome onto the sunlight-hour
counter and the two soil-moisture stress factors. -/
def okData : Except (RunError × DriverSt) DriverSt → Option (ℕ × ℚ × ℚ)
  | .ok st => some (st.sunlight_hrs, st.s.wtfac_topsoil, st.s.wtfac_root)
  | .error _ => none

/-- Projection of a leaf-solve outcome onto the iteration counter it
returns. -/
def okIter : Except (RunError × canopy_wk × ℕ) (canopy_wk × ℕ) → Option ℕ
  | .ok (_, i) => some i
  | .error _ => none

/-- Projection of a driver outcome onto the hour's canopy totals (omega,
transpiration, net radiation of the workspace). -/
def okCw : Except (RunError × DriverSt) DriverSt → Option (ℚ × ℚ × ℚ)
  | .ok st => some (st.cw.omega_canopy, st.cw.trans_canopy, st.cw.rnet_canopy)
  | .error _ => none

/-- Some half hour of the given list has the sun up: its solar elevation
is positive and the PAR of the met record unpacked for it exceeds 20
(the met record evolves through `unpack` exactly as in the driver). -/
def hasSun (E : extern_fns) (doy : ℚ) : List ℕ → ℕ → met → Prop
  | [], _, _ => False
  | hod :: rest, hidx, m =>
    ((0 : ℚ) < E.solar doy hod ∧ (20 : ℚ) < (E.unpack hidx m).par) ∨
      hasSun E doy rest (hidx + 1) (E.unpack hidx m)

/-- All six day-total carbon accumulators are zero. -/
def carbonZero (f : fluxes) : Prop :=
  f.gpp_gCm2 = 0 ∧ f.npp_gCm2 = 0 ∧ f.gpp = 0 ∧ f.npp = 0 ∧
    f.auto_resp = 0 ∧ f.apar = 0

/-- Folding `sum_hourly_carbon_fluxes` over a day's worth of half-hourly
canopy workspaces. -/
def accumulate_day (p : params) (cws : List canopy_wk) (f : fluxes) :
    fluxes :=
  cws.foldl (fun fa cw => sum_hourly_carbon_fluxes cw fa p) f

/-- Modelled from the spec: Celsius-to-Kelvin offset; the constants header
is not among the analysed sources. -/
noncomputable def DEG_TO_KELVIN : ℝ := 273.15

/-- Modelled from the spec: the Stefan-Boltzmann constant; the constants
header is not among the analysed sources. -/
noncomputable def SIGMA : ℝ := 5.67e-8

/-- Modelled from the spec: kilograms-to-grams conversion; the constants
header is not among the analysed sources. -/
noncomputable def KG_AS_G : ℝ := 1000

/-- `calc_leaf_net_rad` from `canopy.c`, over the reals.  The saturation
vapour pressure function (`calc_sat_water_vapour_press`, defined in a
utilities file that is not among the analysed sources) is passed in as
`esat`; the function is evaluated at the air temperature only, so any
`esat` keeps the claims about the remaining arguments intact. -/
noncomputable def calc_leaf_net_rad (esat : ℝ → ℝ)
    (leaf_abs lai tair vpd sw_rad : ℝ) : ℝ :=
  let kd : ℝ := 0.8
  let Tk : ℝ := tair + DEG_TO_KELVIN
  let ea : ℝ := esat tair - vpd
  let emissivity_atm : ℝ := 0.642 * (ea / Tk) ^ ((1 : ℝ) / 7)
  let net_lw_rad : ℝ := (1 - emissivity_atm) * SIGMA * Tk ^ (4 : ℝ)
  leaf_abs * sw_rad - net_lw_rad * kd * Real.exp (-kd * lai)

/-- `calculate_top_of_canopy_leafn` from `canopy.c`, over the reals, as a
function of the parameters and state fields it reads. -/
noncomputable def calculate_top_of_canopy_leafn
    (sla cfracts shootnc lai : ℝ) : ℝ :=
  let kn : ℝ := 0.3
  let LMA : ℝ := 1 / sla * cfracts * KG_AS_G
  if 0 < lai then shootnc * LMA * lai * kn / (1 - Real.exp (-kn * lai))
  else 0

/-- A constant met record used by the concrete scenarios. -/
def mC1 : met := ⟨15, 1, 400, 101, 300, 600, 0⟩

/-- A second met record (cooler air) used by the staleness scenario. -/
def mA : met := { mC1 with tair := 10 }

/-- An initial canopy workspace for the concrete scenarios. -/
def cwInit : canopy_wk :=
  ⟨0, 0, .SUNLIT, ⟨7, 8⟩, ⟨0, 0⟩, ⟨0, 0⟩, ⟨0, 0⟩, ⟨0, 0⟩, ⟨0, 0⟩,
    0, 0, 0, 0, 0, 0, 0, 0, 0, 0, 0⟩

/-- An initial soil state for the concrete scenarios. -/
def sInit : state := ⟨1 / 2, 1 / 2⟩

/-- Parameters for the concrete scenarios. -/
def pInit : params := ⟨1 / 2⟩

/-- An all-zero flux accumulator for the concrete scenarios. -/
def fInit : fluxes := ⟨0, 0, 0, 0, 0, 0, 0, 0⟩

/-- Oracle bundle for the end-to-end counting scenario: the sun is up
exactly for half hours 20-30 (elevation 1 there, 0 otherwise; PAR is the
constant 600), and photosynthesis reports no assimilation, so every leaf
solve takes the non-photosynthesis exit immediately. -/
def E_c1 : extern_fns :=
  { unpack := fun _ _ => mC1
    solar := fun _ hod => if 20 ≤ hod ∧ hod ≤ 30 then 1 else 0
    diffuse := fun _ _ => 1 / 2
    absorbed := fun _ => ⟨100, 50⟩
    topleafn := 1
    photo := fun _ _ => (0, 0)
    rnet_fn := fun _ _ => 0
    penman := fun _ _ _ _ => ⟨0, 0, 1, 1, 1, 0⟩
    soil_water_pot := id
    water_bal := fun _ _ _ _ x => x
    soil_water_fac := id
    zero_water := fun _ => 0 }

/-- Control record of the counting scenario: a 48-half-hour day, C3
pathway, water stress disabled. -/
def c_c1 : control := ⟨.C3, 48, false, 0⟩

/-- Oracle bundle for the staleness scenario.  Hour 0 unpacks the cooler
record `mA` (air temperature 10), in which photosynthesis assimilates
(an = 1) and the Penman collaborator reports a decoupling coefficient of 5
and a transpiration of 3; the energy balance echoes the net radiation as
latent heat, so the leaf temperature converges on the first pass.  Every
later hour unpacks `mC1` (air temperature 15), in which photosynthesis
reports no assimilation, and in which the Penman collaborator would
report a decoupling coefficient of 9 if it were ever consulted. -/
def E_c2 : extern_fns :=
  { E_c1 with
      unpack := fun k _ => if k = 0 then mA else mC1
      solar := fun _ _ => 1
      photo := fun m _ => if m.tair = 10 then (1, 1) else (0, 0)
      rnet_fn := fun m _ => m.tair
      penman := fun m _ rnet _ =>
        ⟨3, rnet, 1, 1 / (CP * MASS_AIR), 1,
          if m.tair = 10 then 5 else 9⟩ }

/-- Control record of the staleness scenario: a 2-half-hour day. -/
def c_c2 : control := ⟨.C3, 2, true, 0⟩

/-- Oracle bundle for the non-convergence scenario: photosynthesis always
assimilates, and the Penman outputs are rigged so that each energy-balance
pass proposes a leaf temperature exactly 1 degree above the current one
(the latent heat is the net radiation minus `4 * (tleaf + 1 - tair)` and
the heat conductance cancels `CP * MASS_AIR`), so the residual is always 1
and the loop can never converge. -/
def E_c3 : extern_fns :=
  { E_c1 with
      solar := fun _ _ => 1
      photo := fun _ _ => (1, 1)
      rnet_fn := fun _ _ => 0
      penman := fun m tleaf rnet _ =>
        ⟨0, rnet - 4 * (tleaf + 1 - m.tair), 1, 1 / (CP * MASS_AIR), 1, 0⟩ }

/-- Oracle bundle for the shared-iteration-budget scenario: as `E_c3`,
except that once the leaf temperature has climbed 34 degrees above the
air temperature the proposed temperature stops moving, so each leaf solve
needs exactly 34 iterations from a fresh start. -/
def E_c4 : extern_fns :=
  { E_c3 with
      penman := fun m tleaf rnet _ =>
        ⟨0, rnet - 4 *
            ((if tleaf < m.tair + 34 then tleaf + 1 else tleaf) - m.tair),
          1, 1 / (CP * MASS_AIR), 1, 0⟩ }

/-- Control record of the shared-budget scenario: a 2-half-hour day. -/
def c_c4 : control := ⟨.C3, 2, true, 0⟩

/-- Oracle bundle for the sunless C4-pathway scenario: the solar elevation
is never positive, so the sun-up branch (and with it the photosynthesis
pathway check) is never reached. -/
def E_c5 : extern_fns := { E_c1 with solar := fun _ _ => 0 }

/-- Control record of the sunless C4-pathway scenario: a 4-half-hour day
with the C4 pathway selected. -/
def c_c5 : control := ⟨.C4, 4, true, 0⟩

/-- Oracle bundle for the fatal C4-pathway scenario: the sun is down in
half hour 0 and up from half hour 1 on. -/
def E_c5b : extern_fns :=
  { E_c1 with solar := fun _ hod => if hod = 1 then 1 else 0 }

/-- Control record of the fatal C4-pathway scenario: a 2-half-hour day
with the C4 pathway selected. -/
def c_c5b : control := ⟨.C4, 2, true, 0⟩

/-- A workspace with canopy assimilation 2 (for the accumulation witness). -/
def cwA : canopy_wk := { cwInit with an_canopy := 2 }

/-- The driver state at the start of the staleness scenario. -/
def st_c2 : DriverSt :=
  { cw := cwInit, f := fInit, s := sInit, m := mC1, iter := 0,
    hour_idx := 0, sunlight_hrs := 0 }

/-- The sunlit-leaf workspace produced by the first (non-photosynthesizing)
leaf solve of the shared-counter witness. -/
def cw1w : canopy_wk :=
  photoSet E_c1 mC1
    (initialise_leaf_surface { cwInit with leaf_idx := .SUNLIT } mC1)

/-- The sunlit-leaf result of hour 0 of the shared-budget scenario. -/
def cwR1_c4 : canopy_wk :=
  solve_leaf_energy_balance E_c4 mC1 (photoSet E_c4 mC1
    (loopIter E_c4 mC1 34 (initialise_leaf_surface
      { sunPrep E_c4 1 0 mC1 cwInit with leaf_idx := .SUNLIT } mC1)))

/-- The shaded-leaf result of hour 0 of the shared-budget scenario. -/
def cwR2_c4 : canopy_wk :=
  solve_leaf_energy_balance E_c4 mC1 (photoSet E_c4 mC1
    (loopIter E_c4 mC1 34 (initialise_leaf_surface
      { cwR1_c4 with leaf_idx := .SHADED } mC1)))

/-- The driver state at the start of the shared-budget scenario. -/
def st0_c4 : DriverSt :=
  { cw := cwInit,
    f := { zero_carbon_day_fluxes fInit with
      omega := E_c4.zero_water (zero_carbon_day_fluxes fInit).omega },
    s := sInit, m := mC1, iter := 0, hour_idx := c_c4.hour_idx,
    sunlight_hrs := 0 }

/-- The driver state after hour 0 of the shared-budget scenario. -/
def st1_c4 : DriverSt := halfhour_tail E_c4 pInit mC1 st0_c4 cwR2_c4 68 st0_c4.s

@[simp] lemma LeafArr.get_set_self (a : LeafArr) (i : Leaf) (v : ℚ) :
    (a.set i v).get i = v := by
  cases i <;> rfl

@[simp] lemma LeafArr.sunlit_set_sunlit (a : LeafArr) (v : ℚ) :
    (a.set .SUNLIT v).sunlit = v := rfl

@[simp] lemma LeafArr.shaded_set_shaded (a : LeafArr) (v : ℚ) :
    (a.set .SHADED v).shaded = v := rfl

@[simp] lemma photoSet_leaf_idx (E : extern_fns) (m : met) (cw : canopy_wk) :
    (photoSet E m cw).leaf_idx = cw.leaf_idx := rfl

@[simp] lemma photoSet_an_self (E : extern_fns) (m : met) (cw : canopy_wk) :
    (photoSet E m cw).an_leaf.get (photoSet E m cw).leaf_idx =
      (E.photo m cw).1 := by
  simp [photoSet]

lemma leafLoop_C4 (E : extern_fns) (m : met) (cw : canopy_wk) (iter : ℕ) :
    leafLoop E .C4 m cw iter = .error (.C4NotImplemented, cw, iter) := by
  rw [leafLoop, leafLoopGo]

lemma leafLoop_nonphoto (E : extern_fns) (m : met) (cw : canopy_wk)
    (iter : ℕ) (h : (E.photo m cw).1 ≤ 1 / 10000) :
    leafLoop E .C3 m cw iter = .ok (photoSet E m cw, iter) := by
  rw [leafLoop, leafLoopGo]
  simp only [photoSet_an_self]
  rw [if_neg (not_lt.mpr h)]

lemma leafLoop_fail (E : extern_fns) (m : met) (cw : canopy_wk) (iter : ℕ)
    (hge : itermax ≤ iter) (han : (1 : ℚ) / 10000 < (E.photo m cw).1) :
    leafLoop E .C3 m cw iter =
      .error (.NoConvergence,
        solve_leaf_energy_balance E m (photoSet E m cw), iter) := by
  rw [leafLoop, leafLoopGo]
  simp only [photoSet_an_self]
  rw [if_pos han, if_pos hge]

lemma leafLoop_converge (E : extern_fns) (m : met) (cw : canopy_wk)
    (iter : ℕ) (hlt : iter < itermax)
    (han : (1 : ℚ) / 10000 < (E.photo m cw).1)
    (hres : residual E m cw < 1 / 50) :
    leafLoop E .C3 m cw iter =
      .ok (solve_leaf_energy_balance E m (photoSet E m cw), iter) := by
  have hres' := hres
  rw [residual] at hres'
  rw [leafLoop, leafLoopGo]
  simp only [photoSet_an_self]
  rw [if_pos han, if_neg (by omega : ¬ itermax ≤ iter), if_pos hres']

lemma leafLoop_step (E : extern_fns) (m : met) (cw : canopy_wk) (iter : ℕ)
    (hlt : iter < itermax)
    (han : (1 : ℚ) / 10000 < (E.photo m cw).1)
    (hres : 1 / 50 ≤ residual E m cw) :
    leafLoop E .C3 m cw iter =
      leafLoop E .C3 m (loopNext E m cw) (iter + 1) := by
  have hres' := not_lt.mpr hres
  rw [residual] at hres'
  have hfuel : itermax + 1 - iter = (itermax + 1 - (iter + 1)) + 1 := by
    omega
  rw [leafLoop, hfuel, leafLoopGo]
  simp only [photoSet_an_self]
  rw [if_pos han, if_neg (by omega : ¬ itermax ≤ iter), if_neg hres']
  rfl

lemma halfhour_sun_ok (E : extern_fns) (c : control) (p : params) (doy : ℚ)
    (hod : ℕ) (st : DriverSt) (cw2 : canopy_wk) (i2 : ℕ)
    (hsun : (0 : ℚ) < E.solar doy hod)
    (hpar : (20 : ℚ) < (E.unpack st.hour_idx st.m).par)
    (hls : leaf_solves E c.ps_pathway (E.unpack st.hour_idx st.m)
      (sunPrep E doy hod (E.unpack st.hour_idx st.m) st.cw) st.iter =
        .ok (cw2, i2)) :
    halfhour E c p doy hod st =
      .ok (halfhour_tail E p (E.unpack st.hour_idx st.m) st cw2 i2 st.s) := by
  rw [halfhour]
  rw [if_pos ⟨hsun, hpar⟩, hls]

lemma halfhour_sun_err (E : extern_fns) (c : control) (p : params) (doy : ℚ)
    (hod : ℕ) (st : DriverSt) (e : RunError) (cwE : canopy_wk) (iE : ℕ)
    (hsun : (0 : ℚ) < E.solar doy hod)
    (hpar : (20 : ℚ) < (E.unpack st.hour_idx st.m).par)
    (hls : leaf_solves E c.ps_pathway (E.unpack st.hour_idx st.m)
      (sunPrep E doy hod (E.unpack st.hour_idx st.m) st.cw) st.iter =
        .error (e, cwE, iE)) :
    halfhour E c p doy hod st =
      .error (e, { st with cw := cwE, m := E.unpack st.hour_idx st.m,
                           iter := iE }) := by
  rw [halfhour]
  rw [if_pos ⟨hsun, hpar⟩, hls]

lemma halfhour_dark (E : extern_fns) (c : control) (p : params) (doy : ℚ)
    (hod : ℕ) (st : DriverSt)
    (hdark : ¬((0 : ℚ) < E.solar doy hod ∧
      (20 : ℚ) < (E.unpack st.hour_idx st.m).par)) :
    halfhour E c p doy hod st =
      .ok (halfhour_tail E p (E.unpack st.hour_idx st.m) st
        (zero_hourly_fluxes { st.cw with
          elevation := E.solar doy hod,
          diffuse_frac := E.diffuse doy (E.unpack st.hour_idx st.m).sw_rad })
        st.iter
        (if hod = 10 then E.soil_water_pot st.s else st.s)) := by
  rw [halfhour]
  rw [if_neg hdark]

lemma dayloop_nil (E : extern_fns) (c : control) (p : params) (doy : ℚ)
    (st : DriverSt) : dayloop E c p doy [] st = .ok st := rfl

lemma dayloop_cons_ok (E : extern_fns) (c : control) (p : params) (doy : ℚ)
    (hod : ℕ) (rest : List ℕ) (st st' : DriverSt)
    (h : halfhour E c p doy hod st = .ok st') :
    dayloop E c p doy (hod :: rest) st = dayloop E c p doy rest st' := by
  rw [dayloop, h]

lemma dayloop_cons_err (E : extern_fns) (c : control) (p : params) (doy : ℚ)
    (hod : ℕ) (rest : List ℕ) (st : DriverSt) (e : RunError × DriverSt)
    (h : halfhour E c p doy hod st = .error e) :
    dayloop E c p doy (hod :: rest) st = .error e := by
  rw [dayloop, h]

lemma canopy_of_dayloop_ok (E : extern_fns) (c : control) (p : params)
    (doyArr : ℕ → ℚ) (f0 : fluxes) (s0 : state) (m0 : met) (cw0 : canopy_wk)
    (st : DriverSt)
    (h : dayloop E c p (doyArr c.hour_idx) (List.range c.num_hlf_hrs)
      { cw := cw0,
        f := { zero_carbon_day_fluxes f0 with
          omega := E.zero_water (zero_carbon_day_fluxes f0).omega },
        s := s0, m := m0, iter := 0, hour_idx := c.hour_idx,
        sunlight_hrs := 0 } = .ok st) :
    canopy E c p doyArr f0 s0 m0 cw0 =
      .ok { st with
        f := { st.f with omega := st.f.omega / (st.sunlight_hrs : ℚ) },
        m := { st.m with tsoil := st.m.tsoil / (c.num_hlf_hrs : ℚ) },
        s := if c.water_stress then E.soil_water_fac st.s
             else { st.s with wtfac_topsoil := 1, wtfac_root := 1 } } := by
  rw [canopy, h]

lemma canopy_of_dayloop_err (E : extern_fns) (c : control) (p : params)
    (doyArr : ℕ → ℚ) (f0 : fluxes) (s0 : state) (m0 : met) (cw0 : canopy_wk)
    (e : RunError × DriverSt)
    (h : dayloop E c p (doyArr c.hour_idx) (List.range c.num_hlf_hrs)
      { cw := cw0,
        f := { zero_carbon_day_fluxes f0 with
          omega := E.zero_water (zero_carbon_day_fluxes f0).omega },
        s := s0, m := m0, iter := 0, hour_idx := c.hour_idx,
        sunlight_hrs := 0 } = .error e) :
    canopy E c p doyArr f0 s0 m0 cw0 = .error e := by
  rw [canopy, h]

lemma leafLoop_iter_le_aux (E : extern_fns) (m : met) :
    ∀ (d iter : ℕ) (cw cw' : canopy_wk) (i' : ℕ), itermax - iter ≤ d →
      leafLoop E .C3 m cw iter = .ok (cw', i') → iter ≤ i' := by
  intro d
  induction d with
  | zero =>
    intro iter cw cw' i' hd h
    by_cases han : (1 : ℚ) / 10000 < (E.photo m cw).1
    · rw [leafLoop_fail E m cw iter (by omega) han] at h
      exact Except.noConfusion h
    · rw [leafLoop_nonphoto E m cw iter (le_of_not_lt han)] at h
      cases h
      exact le_refl _
  | succ n ih =>
    intro iter cw cw' i' hd h
    by_cases han : (1 : ℚ) / 10000 < (E.photo m cw).1
    · by_cases hge : itermax ≤ iter
      · rw [leafLoop_fail E m cw iter hge han] at h
        exact Except.noConfusion h
      · by_cases hres : residual E m cw < 1 / 50
        · rw [leafLoop_converge E m cw iter (by omega) han hres] at h
          cases h
          exact le_refl _
        · rw [leafLoop_step E m cw iter (by omega) han
            (le_of_not_lt hres)] at h
          exact le_trans (by omega)
            (ih (iter + 1) (loopNext E m cw) cw' i' (by omega) h)
    · rw [leafLoop_nonphoto E m cw iter (le_of_not_lt han)] at h
      cases h
      exact le_refl _

lemma leafLoop_iter_le (E : extern_fns) (pw : PsPathway) (m : met)
    (cw : canopy_wk) (iter : ℕ) (cw' : canopy_wk) (i' : ℕ)
    (h : leafLoop E pw m cw iter = .ok (cw', i')) : iter ≤ i' := by
  cases pw
  · exact leafLoop_iter_le_aux E m (itermax - iter) iter cw cw' i'
      (le_refl _) h
  · rw [leafLoop_C4] at h
    exact Except.noConfusion h

lemma leaf_solves_iter_le (E : extern_fns) (pw : PsPathway) (m : met)
    (cw : canopy_wk) (iter : ℕ) (cw' : canopy_wk) (i' : ℕ)
    (h : leaf_solves E pw m cw iter = .ok (cw', i')) : iter ≤ i' := by
  rw [leaf_solves] at h
  split at h
  · cases h
  next cw1 i1 heq =>
    exact le_trans (leafLoop_iter_le E pw m _ iter cw1 i1 heq)
      (leafLoop_iter_le E pw m _ i1 cw' i' h)

lemma halfhour_iter_le (E : extern_fns) (c : control) (p : params) (doy : ℚ)
    (hod : ℕ) (st st' : DriverSt)
    (h : halfhour E c p doy hod st = .ok st') : st.iter ≤ st'.iter := by
  rw [halfhour] at h
  split at h
  · split at h
    · cases h
    next cw2 i2 heq =>
      cases h
      exact leaf_solves_iter_le E c.ps_pathway _ _ _ _ _ heq
  · cases h
    exact le_refl _

lemma dayloop_iter_le (E : extern_fns) (c : control) (p : params) (doy : ℚ) :
    ∀ (hods : List ℕ) (st st' : DriverSt),
      dayloop E c p doy hods st = .ok st' → st.iter ≤ st'.iter := by
  intro hods
  induction hods with
  | nil =>
    intro st st' h
    cases h
    exact le_refl _
  | cons hod rest ih =>
    intro st st' h
    rw [dayloop] at h
    split at h
    · cases h
    next st1 heq =>
      exact le_trans (halfhour_iter_le E c p doy hod st st1 heq) (ih st1 st' h)

lemma loopIter_zero (E : extern_fns) (m : met) (cw : canopy_wk) :
    loopIter E m 0 cw = cw := rfl

lemma loopIter_succ (E : extern_fns) (m : met) (k : ℕ) (cw : canopy_wk) :
    loopIter E m (k + 1) cw = loopIter E m k (loopNext E m cw) := rfl

lemma leafLoop_converge_first (E : extern_fns) (m : met)
    (hph : ∀ cw, (1 : ℚ) / 10000 < (E.photo m cw).1) :
    ∀ (k : ℕ) (cw0 : canopy_wk) (iter0 : ℕ), iter0 + k < itermax →
      (∀ j, j < k → 1 / 50 ≤ residual E m (loopIter E m j cw0)) →
      residual E m (loopIter E m k cw0) < 1 / 50 →
      leafLoop E .C3 m cw0 iter0 =
        .ok (solve_leaf_energy_balance E m (photoSet E m (loopIter E m k cw0)),
          iter0 + k) := by
  intro k
  induction k with
  | zero =>
    intro cw0 iter0 hlt _ hres
    rw [loopIter_zero] at hres
    simpa using leafLoop_converge E m cw0 iter0 (by omega) (hph cw0) hres
  | succ n ih =>
    intro cw0 iter0 hlt hpre hres
    have h0 : 1 / 50 ≤ residual E m cw0 := by
      simpa [loopIter_zero] using hpre 0 (Nat.succ_pos n)
    rw [leafLoop_step E m cw0 iter0 (by omega) (hph cw0) h0]
    have hmain := ih (loopNext E m cw0) (iter0 + 1) (by omega)
      (fun j hj => by
        simpa [loopIter_succ] using hpre (j + 1) (by omega))
      (by simpa [loopIter_succ] using hres)
    rw [show iter0 + 1 + n = iter0 + (n + 1) from by omega] at hmain
    rw [hmain, loopIter_succ]

lemma leafLoop_fail_at_ceiling_aux (E : extern_fns) (m : met)
    (hph : ∀ cw, (1 : ℚ) / 10000 < (E.photo m cw).1) :
    ∀ (d iter0 : ℕ) (cw0 : canopy_wk), itermax - iter0 = d →
      iter0 ≤ itermax →
      (∀ k, iter0 + k < itermax →
        1 / 50 ≤ residual E m (loopIter E m k cw0)) →
      ∃ cwE, leafLoop E .C3 m cw0 iter0 =
        .error (.NoConvergence, cwE, itermax) := by
  intro d
  induction d with
  | zero =>
    intro iter0 cw0 hd hle _
    have hiter : iter0 = itermax := by omega
    subst hiter
    exact ⟨solve_leaf_energy_balance E m (photoSet E m cw0),
      leafLoop_fail E m cw0 itermax (le_refl _) (hph cw0)⟩
  | succ n ih =>
    intro iter0 cw0 hd hle hres
    have hlt : iter0 < itermax := by omega
    have h0 : 1 / 50 ≤ residual E m cw0 := by
      simpa [loopIter_zero] using hres 0 (by omega)
    rw [leafLoop_step E m cw0 iter0 hlt (hph cw0) h0]
    exact ih (iter0 + 1) (loopNext E m cw0) (by omega) (by omega)
      (fun k hk => by simpa [loopIter_succ] using hres (k + 1) (by omega))

lemma residual_geom_bound (E : extern_fns) (m : met) (cw0 : canopy_wk)
    (hsh : ∀ j, residual E m (loopIter E m (j + 1) cw0) ≤
      residual E m (loopIter E m j cw0) / 2) :
    ∀ k, residual E m (loopIter E m k cw0) ≤ residual E m cw0 / 2 ^ k := by
  intro k
  induction k with
  | zero => simp [loopIter_zero]
  | succ n ih =>
    calc residual E m (loopIter E m (n + 1) cw0)
        ≤ residual E m (loopIter E m n cw0) / 2 := hsh n
      _ ≤ residual E m cw0 / 2 ^ n / 2 := by
          exact div_le_div_of_nonneg_right ih (by norm_num)
      _ = residual E m cw0 / 2 ^ (n + 1) := by
          rw [div_div, pow_succ]

/-- Claim C3: the leaf-temperature loop converges exactly at the first
iteration whose residual drops below the 0.02 tolerance (provided that
happens before the counter reaches the ceiling), it fails with the fatal
non-convergence exit at a counter value of exactly `itermax = 100` (never
beyond) when the residual never drops below tolerance, and when the
residual shrinks geometrically (halving each iteration, from any starting
residual below `2 ^ 99 / 50`) the loop reaches the converged exit within
the ceiling.  Throughout, assimilation is assumed to stay above the
`1e-04` threshold so the loop never takes the non-photosynthesis exit. -/
theorem leaf_temperature_loop_policy (E : extern_fns) (m : met)
    (cw0 : canopy_wk) (iter0 : ℕ)
    (hph : ∀ cw, (1 : ℚ) / 10000 < (E.photo m cw).1) :
    (∀ k, iter0 + k < itermax →
      (∀ j, j < k → 1 / 50 ≤ residual E m (loopIter E m j cw0)) →
      residual E m (loopIter E m k cw0) < 1 / 50 →
      leafLoop E .C3 m cw0 iter0 =
        .ok (solve_leaf_energy_balance E m (photoSet E m (loopIter E m k cw0)),
          iter0 + k))
    ∧ (iter0 ≤ itermax →
      (∀ k, iter0 + k < itermax →
        1 / 50 ≤ residual E m (loopIter E m k cw0)) →
      ∃ cwE, leafLoop E .C3 m cw0 iter0 =
        .error (.NoConvergence, cwE, itermax))
    ∧ ((∀ j, residual E m (loopIter E m (j + 1) cw0) ≤
        residual E m (loopIter E m j cw0) / 2) →
      residual E m cw0 < 2 ^ 99 * (1 / 50) →
      ∃ cw' i', leafLoop E .C3 m cw0 0 = .ok (cw', i') ∧ i' < itermax) := by
  refine ⟨fun k => leafLoop_converge_first E m hph k cw0 iter0, ?_, ?_⟩
  · intro hle hres
    exact leafLoop_fail_at_ceiling_aux E m hph (itermax - iter0) iter0 cw0
      rfl hle hres
  · intro hsh hr0
    have h99 : residual E m (loopIter E m 99 cw0) < 1 / 50 := by
      have hb := residual_geom_bound E m cw0 hsh 99
      have h2 : residual E m cw0 / 2 ^ 99 < 1 / 50 := by
        rw [div_lt_iff₀ (by positivity)]
        calc residual E m cw0 < 2 ^ 99 * (1 / 50) := hr0
          _ = 1 / 50 * 2 ^ 99 := by ring
      exact lt_of_le_of_lt hb h2
    have hex : ∃ k, residual E m (loopIter E m k cw0) < 1 / 50 := ⟨99, h99⟩
    classical
    let k0 := Nat.find hex
    have hk0 : residual E m (loopIter E m k0 cw0) < 1 / 50 := Nat.find_spec hex
    have hk0le : k0 ≤ 99 := Nat.find_min' hex h99
    have hpre : ∀ j, j < k0 → 1 / 50 ≤ residual E m (loopIter E m j cw0) :=
      fun j hj => le_of_not_lt (Nat.find_min hex hj)
    have h100 : itermax = 100 := rfl
    refine ⟨_, 0 + k0,
      leafLoop_converge_first E m hph k0 cw0 0 (by omega) hpre hk0, by omega⟩

/-- Claim C7: `scale_to_canopy` is a pure sum/mean over the two leaf
classes, and scaling a workspace whose per-leaf fluxes were just reset by
`zero_hourly_fluxes` yields all-zero canopy totals. -/
theorem scale_to_canopy_sum_mean (cw : canopy_wk) :
    ((scale_to_canopy cw).an_canopy = cw.an_leaf.sunlit + cw.an_leaf.shaded
      ∧ (scale_to_canopy cw).gsc_canopy =
          cw.gsc_leaf.sunlit + cw.gsc_leaf.shaded
      ∧ (scale_to_canopy cw).apar_canopy =
          cw.apar_leaf.sunlit + cw.apar_leaf.shaded
      ∧ (scale_to_canopy cw).trans_canopy =
          cw.trans_leaf.sunlit + cw.trans_leaf.shaded
      ∧ (scale_to_canopy cw).rnet_canopy =
          cw.rnet_leaf.sunlit + cw.rnet_leaf.shaded
      ∧ (scale_to_canopy cw).omega_canopy =
          (cw.omega_leaf.sunlit + cw.omega_leaf.shaded) / 2)
    ∧ ((scale_to_canopy (zero_hourly_fluxes cw)).an_canopy = 0
      ∧ (scale_to_canopy (zero_hourly_fluxes cw)).gsc_canopy = 0
      ∧ (scale_to_canopy (zero_hourly_fluxes cw)).apar_canopy = 0
      ∧ (scale_to_canopy (zero_hourly_fluxes cw)).trans_canopy = 0
      ∧ (scale_to_canopy (zero_hourly_fluxes cw)).rnet_canopy = 0
      ∧ (scale_to_canopy (zero_hourly_fluxes cw)).omega_canopy = 0) := by
  refine ⟨⟨rfl, rfl, rfl, rfl, rfl, rfl⟩, ?_⟩
  simp [scale_to_canopy, zero_hourly_fluxes]

/-- Claim C10: `zero_carbon_day_fluxes` resets exactly the six day-total
carbon fields and leaves every other modelled flux field unchanged; in
particular the stomatal-conductance day accumulator `gs_mol_m2_sec`, into
which `sum_hourly_carbon_fluxes` adds each half hour, is not reset. -/
theorem zero_carbon_day_fluxes_frame (f : fluxes) (cw : canopy_wk)
    (p : params) :
    zero_carbon_day_fluxes f =
      { f with gpp_gCm2 := 0, npp_gCm2 := 0, gpp := 0, npp := 0,
               auto_resp := 0, apar := 0 }
    ∧ (zero_carbon_day_fluxes f).gs_mol_m2_sec = f.gs_mol_m2_sec
    ∧ (zero_carbon_day_fluxes f).omega = f.omega
    ∧ (sum_hourly_carbon_fluxes cw f p).gs_mol_m2_sec =
        f.gs_mol_m2_sec + cw.gsc_canopy :=
  ⟨rfl, rfl, rfl, rfl⟩

lemma leaf_solves_C3_both (E : extern_fns) (m : met) (cw : canopy_wk)
    (iter : ℕ) (hph : ∀ cw', (E.photo m cw').1 ≤ 1 / 10000) :
    leaf_solves E .C3 m cw iter =
      .ok (photoSet E m (initialise_leaf_surface
        { photoSet E m (initialise_leaf_surface
            { cw with leaf_idx := .SUNLIT } m) with leaf_idx := .SHADED } m),
        iter) := by
  rw [leaf_solves, leafLoop_nonphoto E m _ iter (hph _)]
  exact leafLoop_nonphoto E m _ iter (hph _)

lemma halfhour_nonphoto (E : extern_fns) (c : control) (p : params)
    (doy : ℚ) (hod : ℕ) (st : DriverSt)
    (hpw : c.ps_pathway = .C3)
    (hsun : (0 : ℚ) < E.solar doy hod)
    (hpar : (20 : ℚ) < (E.unpack st.hour_idx st.m).par)
    (hph : ∀ cw, (E.photo (E.unpack st.hour_idx st.m) cw).1 ≤ 1 / 10000) :
    halfhour E c p doy hod st =
      .ok (halfhour_tail E p (E.unpack st.hour_idx st.m) st
        (photoSet E (E.unpack st.hour_idx st.m) (initialise_leaf_surface
          { photoSet E (E.unpack st.hour_idx st.m) (initialise_leaf_surface
              { sunPrep E doy hod (E.unpack st.hour_idx st.m) st.cw with
                  leaf_idx := .SUNLIT } (E.unpack st.hour_idx st.m)) with
              leaf_idx := .SHADED } (E.unpack st.hour_idx st.m)))
        st.iter st.s) := by
  apply halfhour_sun_ok E c p doy hod st _ st.iter hsun hpar
  rw [hpw]
  exact leaf_solves_C3_both E _ _ st.iter hph

/-- Claim C2, amended: in a sun-up half hour in which the photosynthesis
collaborator reports assimilation at or below the `1e-04` threshold (so
both leaves take the non-photosynthesis exit on their first iteration),
the half hour completes and its canopy assimilation, conductance and APAR
come from values computed that half hour, but the per-leaf transpiration,
decoupling-coefficient and net-radiation entries are exactly the ones the
workspace already held — left over from whatever half hour last wrote
them — and the canopy transpiration/omega/net-radiation totals are the
sum (respectively mean) of those leftover values. -/
theorem canopy_totals_nonphoto_stale (E : extern_fns) (c : control)
    (p : params) (doy : ℚ) (hod : ℕ) (st : DriverSt)
    (hpw : c.ps_pathway = .C3)
    (hsun : (0 : ℚ) < E.solar doy hod)
    (hpar : (20 : ℚ) < (E.unpack st.hour_idx st.m).par)
    (hph : ∀ cw, (E.photo (E.unpack st.hour_idx st.m) cw).1 ≤ 1 / 10000) :
    ∃ st', halfhour E c p doy hod st = .ok st'
      ∧ st'.cw.trans_leaf = st.cw.trans_leaf
      ∧ st'.cw.omega_leaf = st.cw.omega_leaf
      ∧ st'.cw.rnet_leaf = st.cw.rnet_leaf
      ∧ st'.cw.omega_canopy =
          (st.cw.omega_leaf.sunlit + st.cw.omega_leaf.shaded) / 2
      ∧ st'.cw.trans_canopy =
          st.cw.trans_leaf.sunlit + st.cw.trans_leaf.shaded
      ∧ st'.cw.rnet_canopy =
          st.cw.rnet_leaf.sunlit + st.cw.rnet_leaf.shaded := by
  refine ⟨_, halfhour_nonphoto E c p doy hod st hpw hsun hpar hph,
    ?_, ?_, ?_, ?_, ?_, ?_⟩ <;>
    simp [halfhour_tail, scale_to_canopy, photoSet, initialise_leaf_surface,
      sunPrep]

/-- Witness for the amended claim C2 at a concrete sun-up half hour of the
counting scenario. -/
theorem canopy_totals_nonphoto_stale_witness :
    ∃ st', halfhour E_c1 c_c1 pInit 1 25 st_c2 = .ok st'
      ∧ st'.cw.trans_leaf = st_c2.cw.trans_leaf
      ∧ st'.cw.omega_leaf = st_c2.cw.omega_leaf
      ∧ st'.cw.rnet_leaf = st_c2.cw.rnet_leaf
      ∧ st'.cw.omega_canopy =
          (st_c2.cw.omega_leaf.sunlit + st_c2.cw.omega_leaf.shaded) / 2
      ∧ st'.cw.trans_canopy =
          st_c2.cw.trans_leaf.sunlit + st_c2.cw.trans_leaf.shaded
      ∧ st'.cw.rnet_canopy =
          st_c2.cw.rnet_leaf.sunlit + st_c2.cw.rnet_leaf.shaded :=
  canopy_totals_nonphoto_stale E_c1 c_c1 pInit 1 25 st_c2 rfl
    (by norm_num [E_c1]) (by norm_num [E_c1, st_c2, mC1])
    (fun cw => by norm_num [E_c1])

lemma e2_residual (cw : canopy_wk) (h : cw.tleaf = 10) :
    residual E_c2 mA cw = 0 := by
  simp [residual, solve_leaf_energy_balance, photoSet, E_c2, E_c1, mA, mC1,
    h, CP, MASS_AIR]

lemma e2_unpack0 : E_c2.unpack st_c2.hour_idx st_c2.m = mA := by
  simp [E_c2, E_c1, st_c2]

lemma e2_photo_mA (cw : canopy_wk) : (1 : ℚ) / 10000 < (E_c2.photo mA cw).1 := by
  norm_num [E_c2, E_c1, mA, mC1]

lemma e2_leafLoop (cw : canopy_wk) (h : cw.tleaf = 10) :
    leafLoop E_c2 .C3 mA cw 0 =
      .ok (solve_leaf_energy_balance E_c2 mA (photoSet E_c2 mA cw), 0) :=
  leafLoop_converge E_c2 mA cw 0 (by norm_num [itermax]) (e2_photo_mA cw)
    (by rw [e2_residual cw h]; norm_num)

lemma e2_hour0 :
    halfhour E_c2 c_c2 pInit 1 0 st_c2 =
      .ok (halfhour_tail E_c2 pInit mA st_c2
        (solve_leaf_energy_balance E_c2 mA (photoSet E_c2 mA
          (initialise_leaf_surface
            { solve_leaf_energy_balance E_c2 mA (photoSet E_c2 mA
                (initialise_leaf_surface
                  { sunPrep E_c2 1 0 mA st_c2.cw with leaf_idx := .SUNLIT }
                  mA)) with leaf_idx := .SHADED } mA)))
        0 st_c2.s) := by
  have key := halfhour_sun_ok E_c2 c_c2 pInit 1 0 st_c2
    (solve_leaf_energy_balance E_c2 mA (photoSet E_c2 mA
      (initialise_leaf_surface
        { solve_leaf_energy_balance E_c2 mA (photoSet E_c2 mA
            (initialise_leaf_surface
              { sunPrep E_c2 1 0 (E_c2.unpack st_c2.hour_idx st_c2.m)
                  st_c2.cw with leaf_idx := .SUNLIT }
              mA)) with leaf_idx := .SHADED } mA)))
    0 (by norm_num [E_c2, E_c1]) ?hpar ?hls
  case hpar =>
    rw [e2_unpack0]
    norm_num [mA, mC1]
  case hls =>
    rw [e2_unpack0]
    show leaf_solves E_c2 .C3 mA _ 0 = _
    rw [leaf_solves,
      e2_leafLoop _ (by simp [initialise_leaf_surface, mA, mC1])]
    exact e2_leafLoop _ (by simp [initialise_leaf_surface, mA, mC1])
  rw [e2_unpack0] at key
  exact key

theorem canopy_totals_stale_cex :
    ∃ st1 st2,
      halfhour E_c2 c_c2 pInit 1 0 st_c2 = .ok st1
      ∧ halfhour E_c2 c_c2 pInit 1 1 st1 = .ok st2
      ∧ st1.cw.omega_leaf = ⟨5, 5⟩
      ∧ st1.cw.trans_leaf = ⟨3, 3⟩
      ∧ st1.cw.rnet_leaf = ⟨10, 10⟩
      ∧ (0 : ℚ) < E_c2.solar 1 1
      ∧ (20 : ℚ) < (E_c2.unpack st1.hour_idx st1.m).par
      ∧ (∀ cw, (E_c2.photo (E_c2.unpack st1.hour_idx st1.m) cw).1 ≤ 1 / 10000)
      ∧ st2.cw.omega_canopy = 5
      ∧ st2.cw.trans_canopy = 6
      ∧ st2.cw.rnet_canopy = 20
      ∧ (∀ t r g, (E_c2.penman (E_c2.unpack st1.hour_idx st1.m) t r g).omega = 9) := by
  have hpar1 : (20 : ℚ) <
      (E_c2.unpack (halfhour_tail E_c2 pInit mA st_c2
        (solve_leaf_energy_balance E_c2 mA (photoSet E_c2 mA
          (initialise_leaf_surface
            { solve_leaf_energy_balance E_c2 mA (photoSet E_c2 mA
                (initialise_leaf_surface
                  { sunPrep E_c2 1 0 mA st_c2.cw with leaf_idx := .SUNLIT }
                  mA)) with leaf_idx := .SHADED } mA)))
        0 st_c2.s).hour_idx
        (halfhour_tail E_c2 pInit mA st_c2
        (solve_leaf_energy_balance E_c2 mA (photoSet E_c2 mA
          (initialise_leaf_surface
            { solve_leaf_energy_balance E_c2 mA (photoSet E_c2 mA
                (initialise_leaf_surface
                  { sunPrep E_c2 1 0 mA st_c2.cw with leaf_idx := .SUNLIT }
                  mA)) with leaf_idx := .SHADED } mA)))
        0 st_c2.s).m).par := by
    norm_num [halfhour_tail, E_c2, E_c1, st_c2, mA, mC1]
  have hph1 : ∀ cw, (E_c2.photo
      (E_c2.unpack (halfhour_tail E_c2 pInit mA st_c2
        (solve_leaf_energy_balance E_c2 mA (photoSet E_c2 mA
          (initialise_leaf_surface
            { solve_leaf_energy_balance E_c2 mA (photoSet E_c2 mA
                (initialise_leaf_surface
                  { sunPrep E_c2 1 0 mA st_c2.cw with leaf_idx := .SUNLIT }
                  mA)) with leaf_idx := .SHADED } mA)))
        0 st_c2.s).hour_idx
        (halfhour_tail E_c2 pInit mA st_c2
        (solve_leaf_energy_balance E_c2 mA (photoSet E_c2 mA
          (initialise_leaf_surface
            { solve_leaf_energy_balance E_c2 mA (photoSet E_c2 mA
                (initialise_leaf_surface
                  { sunPrep E_c2 1 0 mA st_c2.cw with leaf_idx := .SUNLIT }
                  mA)) with leaf_idx := .SHADED } mA)))
        0 st_c2.s).m) cw).1 ≤ 1 / 10000 := by
    intro cw
    norm_num [halfhour_tail, E_c2, E_c1, st_c2, mA, mC1]
  refine ⟨_, _, e2_hour0,
    halfhour_nonphoto E_c2 c_c2 pInit 1 1 _ rfl (by norm_num [E_c2, E_c1])
      hpar1 hph1,
    ?_, ?_, ?_, by norm_num [E_c2, E_c1], hpar1, hph1, ?_, ?_, ?_, ?_⟩ <;>
    simp [halfhour_tail, scale_to_canopy, solve_leaf_energy_balance, photoSet,
      initialise_leaf_surface, sunPrep, E_c2, E_c1, mA, mC1, st_c2, cwInit,
      LeafArr.set, LeafArr.get, CP, MASS_AIR] <;>
    norm_num

lemma halfhour_trivial (E : extern_fns) (c : control) (p : params)
    (doy : ℚ) (hod : ℕ) (st : DriverSt)
    (hpw : c.ps_pathway = .C3)
    (hph : ∀ m cw, (E.photo m cw).1 ≤ 1 / 10000) :
    ∃ st', halfhour E c p doy hod st = .ok st'
      ∧ st'.sunlight_hrs = st.sunlight_hrs + 1
      ∧ st'.hour_idx = st.hour_idx + 1
      ∧ st'.m = E.unpack st.hour_idx st.m
      ∧ st'.iter = st.iter := by
  by_cases hcond : (0 : ℚ) < E.solar doy hod ∧
      (20 : ℚ) < (E.unpack st.hour_idx st.m).par
  · exact ⟨_, halfhour_nonphoto E c p doy hod st hpw hcond.1 hcond.2
      (fun cw => hph _ cw), rfl, rfl, rfl, rfl⟩
  · exact ⟨_, halfhour_dark E c p doy hod st hcond, rfl, rfl, rfl, rfl⟩

lemma dayloop_trivial (E : extern_fns) (c : control) (p : params) (doy : ℚ)
    (hpw : c.ps_pathway = .C3)
    (hph : ∀ m cw, (E.photo m cw).1 ≤ 1 / 10000) :
    ∀ (hods : List ℕ) (st : DriverSt),
      ∃ st', dayloop E c p doy hods st = .ok st'
        ∧ st'.sunlight_hrs = st.sunlight_hrs + hods.length := by
  intro hods
  induction hods with
  | nil => exact fun st => ⟨st, rfl, rfl⟩
  | cons hod rest ih =>
    intro st
    obtain ⟨st1, h1, hs1, _, _, _⟩ := halfhour_trivial E c p doy hod st hpw hph
    obtain ⟨st', h', hs'⟩ := ih st1
    refine ⟨st', ?_, ?_⟩
    · rw [dayloop_cons_ok E c p doy hod rest st st1 h1]
      exact h'
    · rw [hs', hs1, List.length_cons]
      omega

/-- Claim C1, evaluated at the failing input: on the 48-half-hour day in
which the sun-up condition (elevation > 0 and PAR > 20) holds exactly for
half hours 20-30 (11 half hours) and water stress is disabled, the run
completes with both soil-moisture stress factors exactly 1, but the
`sunlight_hrs` counter ends at 48, not 11: the increment sits after the
sun test in the loop body, so it counts every half hour, contradicting
the variable's name, the day-end comment (`average omega ... over
sunlight hours`) and the specification. -/
theorem sunlight_hours_counter_eval :
    ∃ st, canopy E_c1 c_c1 pInit (fun _ => 1) fInit sInit mC1 cwInit = .ok st
      ∧ st.sunlight_hrs = 48
      ∧ st.s.wtfac_topsoil = 1
      ∧ st.s.wtfac_root = 1
      ∧ ((List.range 48).filter (fun hod => 20 ≤ hod ∧ hod ≤ 30)).length = 11
      ∧ (∀ hod, ((0 : ℚ) < E_c1.solar 1 hod ∧ (20 : ℚ) < mC1.par) ↔
          (20 ≤ hod ∧ hod ≤ 30)) := by
  obtain ⟨st', hrun, hsl⟩ := dayloop_trivial E_c1 c_c1 pInit
    ((fun _ => (1 : ℚ)) c_c1.hour_idx) rfl
    (fun m cw => by norm_num [E_c1])
    (List.range c_c1.num_hlf_hrs)
    { cw := cwInit,
      f := { zero_carbon_day_fluxes fInit with
        omega := E_c1.zero_water (zero_carbon_day_fluxes fInit).omega },
      s := sInit, m := mC1, iter := 0, hour_idx := c_c1.hour_idx,
      sunlight_hrs := 0 }
  refine ⟨_, canopy_of_dayloop_ok E_c1 c_c1 pInit (fun _ => 1) fInit sInit
    mC1 cwInit st' hrun, ?_, ?_, ?_, by decide, ?_⟩
  · show st'.sunlight_hrs = 48
    rw [hsl]
    simp [c_c1]
  · show (if c_c1.water_stress then E_c1.soil_water_fac st'.s
      else { st'.s with wtfac_topsoil := 1, wtfac_root := 1 }).wtfac_topsoil = 1
    simp [c_c1]
  · show (if c_c1.water_stress then E_c1.soil_water_fac st'.s
      else { st'.s with wtfac_topsoil := 1, wtfac_root := 1 }).wtfac_root = 1
    simp [c_c1]
  · intro hod
    by_cases h : 20 ≤ hod ∧ hod ≤ 30
    all_goals simp [E_c1, mC1, h]
    all_goals norm_num

/-- Claim C4, amended: within a half hour the iteration counter is shared
between the two leaf classes — the shaded solve starts at exactly the
counter value the sunlit solve returned — and the counter is never reset
inside the day: each half hour's final counter is at least its initial
one, carried from hour to hour by the day loop, with `canopy` starting it
at 0 once per day (not once per half hour). -/
theorem iteration_counter_shared_budget :
    (∀ (E : extern_fns) (pw : PsPathway) (m : met) (cw : canopy_wk)
        (iter : ℕ) (cw1 : canopy_wk) (i1 : ℕ),
      leafLoop E pw m
          (initialise_leaf_surface { cw with leaf_idx := .SUNLIT } m) iter =
        .ok (cw1, i1) →
      leaf_solves E pw m cw iter =
        leafLoop E pw m
          (initialise_leaf_surface { cw1 with leaf_idx := .SHADED } m) i1)
    ∧ (∀ (E : extern_fns) (c : control) (p : params) (doy : ℚ) (hod : ℕ)
        (st st' : DriverSt),
      halfhour E c p doy hod st = .ok st' → st.iter ≤ st'.iter)
    ∧ (∀ (E : extern_fns) (c : control) (p : params) (doy : ℚ)
        (hods : List ℕ) (st st' : DriverSt),
      dayloop E c p doy hods st = .ok st' → st.iter ≤ st'.iter) := by
  refine ⟨?_, ?_, ?_⟩
  · intro E pw m cw iter cw1 i1 h
    rw [leaf_solves, h]
  · exact fun E c p doy hod st st' h => halfhour_iter_le E c p doy hod st st' h
  · exact fun E c p doy hods st st' h =>
      dayloop_iter_le E c p doy hods st st' h

/-- Witness for the amended claim C4: in the counting scenario the sunlit
solve exits immediately (non-photosynthesizing) with counter 0, and the
sunlit/shaded loop hands exactly that counter to the shaded solve. -/
theorem iteration_counter_shared_budget_witness :
    leaf_solves E_c1 .C3 mC1 cwInit 0 =
      leafLoop E_c1 .C3 mC1
        (initialise_leaf_surface { cw1w with leaf_idx := .SHADED } mC1) 0 :=
  iteration_counter_shared_budget.1 E_c1 .C3 mC1 cwInit 0 cw1w 0
    (leafLoop_nonphoto E_c1 mC1 _ 0 (by norm_num [E_c1]))

lemma e3_residual (cw : canopy_wk) : residual E_c3 mC1 cw = 1 := by
  simp only [residual, solve_leaf_energy_balance, photoSet, E_c3, E_c1, mC1,
    CP, MASS_AIR]
  norm_num

lemma e4_tleaf_new (cw : canopy_wk) :
    (solve_leaf_energy_balance E_c4 mC1 (photoSet E_c4 mC1 cw)).tleaf_new =
      if cw.tleaf < 49 then cw.tleaf + 1 else cw.tleaf := by
  simp only [solve_leaf_energy_balance, photoSet, E_c4, E_c3, E_c1, mC1,
    CP, MASS_AIR]
  norm_num

lemma e4_residual (cw : canopy_wk) :
    residual E_c4 mC1 cw = if cw.tleaf < 49 then 1 else 0 := by
  have hT : (solve_leaf_energy_balance E_c4 mC1
      (photoSet E_c4 mC1 cw)).tleaf = cw.tleaf := rfl
  rw [residual, hT, e4_tleaf_new]
  split_ifs with h
  · rw [show cw.tleaf - (cw.tleaf + 1) = -1 by ring]
    norm_num
  · simp

lemma e4_loopNext_tleaf (cw : canopy_wk) :
    (loopNext E_c4 mC1 cw).tleaf =
      if cw.tleaf < 49 then cw.tleaf + 1 else cw.tleaf := by
  rw [loopNext]
  exact e4_tleaf_new cw

lemma e4_traj : ∀ (k : ℕ) (cw : canopy_wk), cw.tleaf + k ≤ 49 →
    (loopIter E_c4 mC1 k cw).tleaf = cw.tleaf + k := by
  intro k
  induction k with
  | zero => intro cw _; simp [loopIter_zero]
  | succ n ih =>
    intro cw hk
    have hlt : cw.tleaf < 49 := by
      have : (0 : ℚ) ≤ n := by positivity
      push_cast at hk
      linarith
    rw [loopIter_succ, ih (loopNext E_c4 mC1 cw)
      (by rw [e4_loopNext_tleaf, if_pos hlt]; push_cast at hk ⊢; linarith),
      e4_loopNext_tleaf, if_pos hlt]
    push_cast
    ring

lemma e4_photo (m : met) (cw : canopy_wk) :
    (1 : ℚ) / 10000 < (E_c4.photo m cw).1 := by
  norm_num [E_c4, E_c3, E_c1]

lemma e4_leafLoop_ok (cw : canopy_wk) (iter0 : ℕ)
    (hlt : iter0 + 34 < itermax) (h : cw.tleaf = 15) :
    leafLoop E_c4 .C3 mC1 cw iter0 =
      .ok (solve_leaf_energy_balance E_c4 mC1
        (photoSet E_c4 mC1 (loopIter E_c4 mC1 34 cw)), iter0 + 34) := by
  have hpre : ∀ j, j < 34 →
      1 / 50 ≤ residual E_c4 mC1 (loopIter E_c4 mC1 j cw) := by
    intro j hj
    have hjq : (j : ℚ) ≤ 33 := by exact_mod_cast Nat.le_of_lt_succ hj
    have hle : cw.tleaf + (j : ℚ) ≤ 49 := by rw [h]; linarith
    have htl : (loopIter E_c4 mC1 j cw).tleaf < 49 := by
      rw [e4_traj j cw hle, h]
      linarith
    rw [e4_residual, if_pos htl]
    norm_num
  have hres : residual E_c4 mC1 (loopIter E_c4 mC1 34 cw) < 1 / 50 := by
    have hle : cw.tleaf + ((34 : ℕ) : ℚ) ≤ 49 := by rw [h]; norm_num
    have htl : ¬ (loopIter E_c4 mC1 34 cw).tleaf < 49 := by
      rw [e4_traj 34 cw hle, h]
      norm_num
    rw [e4_residual, if_neg htl]
    norm_num
  exact leafLoop_converge_first E_c4 mC1 (fun cw' => e4_photo mC1 cw') 34 cw
    iter0 hlt hpre hres

lemma e4_leafLoop_err (cw : canopy_wk) (iter0 : ℕ) (hges : 66 ≤ iter0)
    (hle : iter0 ≤ itermax) (h : cw.tleaf = 15) :
    ∃ cwE, leafLoop E_c4 .C3 mC1 cw iter0 =
      .error (.NoConvergence, cwE, itermax) := by
  apply leafLoop_fail_at_ceiling_aux E_c4 mC1 (fun cw' => e4_photo mC1 cw')
    (itermax - iter0) iter0 cw rfl hle
  intro k hk
  have h100 : itermax = 100 := rfl
  have hk33 : k ≤ 33 := by omega
  have hjq : (k : ℚ) ≤ 33 := by exact_mod_cast hk33
  have hleq : cw.tleaf + (k : ℚ) ≤ 49 := by rw [h]; linarith
  have htl : (loopIter E_c4 mC1 k cw).tleaf < 49 := by
    rw [e4_traj k cw hleq, h]
    linarith
  rw [e4_residual, if_pos htl]
  norm_num

lemma e4_hour0 : halfhour E_c4 c_c4 pInit 1 0 st0_c4 = .ok st1_c4 := by
  have hA := e4_leafLoop_ok (initialise_leaf_surface
    { sunPrep E_c4 1 0 mC1 cwInit with leaf_idx := .SUNLIT } mC1) 0
    (by norm_num [itermax]) rfl
  rw [Nat.zero_add] at hA
  have hB := e4_leafLoop_ok (initialise_leaf_surface
    { cwR1_c4 with leaf_idx := .SHADED } mC1) 34
    (by norm_num [itermax]) rfl
  rw [show (34 : ℕ) + 34 = 68 from rfl] at hB
  have hls0 : leaf_solves E_c4 .C3 mC1 (sunPrep E_c4 1 0 mC1 cwInit) 0 =
      .ok (cwR2_c4, 68) := by
    rw [leaf_solves, hA]
    exact hB
  exact halfhour_sun_ok E_c4 c_c4 pInit 1 0 st0_c4 cwR2_c4 68
    (by norm_num [E_c4, E_c3, E_c1]) (by norm_num [E_c4, E_c3, E_c1, mC1])
    hls0

theorem iteration_budget_not_per_halfhour_cex :
    (∃ stE, canopy E_c4 c_c4 pInit (fun _ => 1) fInit sInit mC1 cwInit =
        .error (.NoConvergence, stE)
      ∧ stE.iter = 100 ∧ stE.sunlight_hrs = 1)
    ∧ (∃ cwR, leafLoop E_c4 .C3 mC1
        (initialise_leaf_surface { cwInit with leaf_idx := .SUNLIT } mC1) 0 =
          .ok (cwR, 34)) := by
  constructor
  · obtain ⟨cwE, hE⟩ := e4_leafLoop_err (initialise_leaf_surface
      { sunPrep E_c4 1 1 mC1 st1_c4.cw with leaf_idx := .SUNLIT } mC1) 68
      (by norm_num) (by norm_num [itermax]) rfl
    have hls1 : leaf_solves E_c4 .C3 mC1 (sunPrep E_c4 1 1 mC1 st1_c4.cw)
        68 = .error (.NoConvergence, cwE, itermax) := by
      rw [leaf_solves, hE]
    have hhour1 := halfhour_sun_err E_c4 c_c4 pInit 1 1 st1_c4 .NoConvergence
      cwE itermax (by norm_num [E_c4, E_c3, E_c1])
      (by norm_num [E_c4, E_c3, E_c1, mC1, st1_c4, halfhour_tail]) hls1
    have hday : dayloop E_c4 c_c4 pInit 1 (List.range c_c4.num_hlf_hrs)
        st0_c4 = .error (.NoConvergence,
          { st1_c4 with
              cw := cwE,
              m := E_c4.unpack st1_c4.hour_idx st1_c4.m,
              iter := itermax }) := by
      rw [show List.range c_c4.num_hlf_hrs = [0, 1] from rfl,
        dayloop_cons_ok E_c4 c_c4 pInit 1 0 [1] _ _ e4_hour0,
        dayloop_cons_err E_c4 c_c4 pInit 1 1 [] _ _ hhour1]
    exact ⟨_, canopy_of_dayloop_err E_c4 c_c4 pInit (fun _ => 1) fInit sInit
      mC1 cwInit _ hday, rfl, rfl⟩
  · have h := e4_leafLoop_ok (initialise_leaf_surface
      { cwInit with leaf_idx := .SUNLIT } mC1) 0 (by norm_num [itermax]) rfl
    rw [Nat.zero_add] at h
    exact ⟨_, h⟩

/-- Witness for claim C3: with the rigged oracle whose residual is always
1, the loop started at counter 0 fails with the fatal non-convergence exit
at a counter of exactly `itermax`. -/
theorem leaf_temperature_loop_policy_witness :
    ∃ cwE, leafLoop E_c3 .C3 mC1
      (initialise_leaf_surface { cwInit with leaf_idx := .SUNLIT } mC1) 0 =
        .error (.NoConvergence, cwE, itermax) :=
  (leaf_temperature_loop_policy E_c3 mC1 _ 0
    (fun cw => by norm_num [E_c3, E_c1])).2.1 (by norm_num [itermax])
    (fun k _ => by rw [e3_residual]; norm_num)

lemma dayloop_no_sun (E : extern_fns) (c : control) (p : params) (doy : ℚ)
    (hsolar : ∀ hod, ¬ (0 : ℚ) < E.solar doy hod) :
    ∀ (hods : List ℕ) (st : DriverSt),
      ∃ st', dayloop E c p doy hods st = .ok st' := by
  intro hods
  induction hods with
  | nil => exact fun st => ⟨st, rfl⟩
  | cons hod rest ih =>
    intro st
    have hh := halfhour_dark E c p doy hod st (fun hc => hsolar hod hc.1)
    obtain ⟨st', h'⟩ := ih (halfhour_tail E p (E.unpack st.hour_idx st.m) st
      (zero_hourly_fluxes { st.cw with
          elevation := E.solar doy hod,
          diffuse_frac := E.diffuse doy (E.unpack st.hour_idx st.m).sw_rad })
      st.iter (if hod = 10 then E.soil_water_pot st.s else st.s))
    exact ⟨st', by rw [dayloop_cons_ok E c p doy hod rest st _ hh]; exact h'⟩

/-- Counterexample to claim C5 as stated: with the C4 pathway selected but
the sun never up (solar elevation never positive), the photosynthesis
pathway check is never reached, so the run completes normally instead of
terminating through the unrecoverable-error path. -/
theorem c4_pathway_no_sun_completes_cex :
    c_c5.ps_pathway = .C4
    ∧ ∃ st, canopy E_c5 c_c5 pInit (fun _ => 1) fInit sInit mC1 cwInit =
        .ok st := by
  refine ⟨rfl, ?_⟩
  obtain ⟨st', h⟩ := dayloop_no_sun E_c5 c_c5 pInit
    ((fun _ => (1 : ℚ)) c_c5.hour_idx)
    (fun hod => by norm_num [E_c5, E_c1]) (List.range c_c5.num_hlf_hrs)
    { cw := cwInit,
      f := { zero_carbon_day_fluxes fInit with
        omega := E_c5.zero_water (zero_carbon_day_fluxes fInit).omega },
      s := sInit, m := mC1, iter := 0, hour_idx := c_c5.hour_idx,
      sunlight_hrs := 0 }
  exact ⟨_, canopy_of_dayloop_ok E_c5 c_c5 pInit (fun _ => 1) fInit sInit mC1
    cwInit st' h⟩

lemma leaf_solves_C4 (E : extern_fns) (m : met) (cw : canopy_wk) (iter : ℕ) :
    leaf_solves E .C4 m cw iter = .error (.C4NotImplemented,
      initialise_leaf_surface { cw with leaf_idx := .SUNLIT } m, iter) := by
  rw [leaf_solves, leafLoop_C4]

lemma halfhour_C4_err (E : extern_fns) (c : control) (p : params) (doy : ℚ)
    (hod : ℕ) (st : DriverSt) (hpw : c.ps_pathway = .C4)
    (hsun : (0 : ℚ) < E.solar doy hod)
    (hpar : (20 : ℚ) < (E.unpack st.hour_idx st.m).par) :
    halfhour E c p doy hod st = .error (.C4NotImplemented,
      { st with
          cw := initialise_leaf_surface
            { sunPrep E doy hod (E.unpack st.hour_idx st.m) st.cw with
                leaf_idx := .SUNLIT } (E.unpack st.hour_idx st.m),
          m := E.unpack st.hour_idx st.m,
          iter := st.iter }) := by
  apply halfhour_sun_err E c p doy hod st _ _ st.iter hsun hpar
  rw [hpw]
  exact leaf_solves_C4 E _ _ st.iter

lemma halfhour_dark_carbon (E : extern_fns) (c : control) (p : params)
    (doy : ℚ) (hod : ℕ) (st : DriverSt)
    (hdark : ¬((0 : ℚ) < E.solar doy hod ∧
      (20 : ℚ) < (E.unpack st.hour_idx st.m).par))
    (hz : carbonZero st.f) :
    ∃ st', halfhour E c p doy hod st = .ok st'
      ∧ carbonZero st'.f
      ∧ st'.f.gs_mol_m2_sec = st.f.gs_mol_m2_sec
      ∧ st'.hour_idx = st.hour_idx + 1
      ∧ st'.m = E.unpack st.hour_idx st.m := by
  obtain ⟨h1, h2, h3, h4, h5, h6⟩ := hz
  refine ⟨_, halfhour_dark E c p doy hod st hdark, ⟨?_, ?_, ?_, ?_, ?_, ?_⟩,
    ?_, rfl, rfl⟩ <;>
    simp [carbonZero, halfhour_tail, sum_hourly_carbon_fluxes,
      scale_to_canopy, zero_hourly_fluxes, h1, h2, h3, h4, h5, h6]

lemma dayloop_C4_err (E : extern_fns) (c : control) (p : params) (doy : ℚ)
    (hpw : c.ps_pathway = .C4) :
    ∀ (hods : List ℕ) (st : DriverSt),
      hasSun E doy hods st.hour_idx st.m → carbonZero st.f →
      ∃ stE, dayloop E c p doy hods st = .error (.C4NotImplemented, stE)
        ∧ carbonZero stE.f
        ∧ stE.f.gs_mol_m2_sec = st.f.gs_mol_m2_sec := by
  intro hods
  induction hods with
  | nil =>
    intro st hsun _
    rw [hasSun] at hsun
    exact hsun.elim
  | cons hod rest ih =>
    intro st hsun hz
    rw [hasSun] at hsun
    by_cases hcond : (0 : ℚ) < E.solar doy hod ∧
        (20 : ℚ) < (E.unpack st.hour_idx st.m).par
    · have hh := halfhour_C4_err E c p doy hod st hpw hcond.1 hcond.2
      refine ⟨{ st with
          cw := initialise_leaf_surface
            { sunPrep E doy hod (E.unpack st.hour_idx st.m) st.cw with
                leaf_idx := .SUNLIT } (E.unpack st.hour_idx st.m),
          m := E.unpack st.hour_idx st.m,
          iter := st.iter }, ?_, ?_, ?_⟩
      · rw [dayloop_cons_err E c p doy hod rest st _ hh]
      · exact hz
      · rfl
    · have hsun' : hasSun E doy rest (st.hour_idx + 1)
          (E.unpack st.hour_idx st.m) := by
        cases hsun with
        | inl h => exact absurd h hcond
        | inr h => exact h
      obtain ⟨st1, hh, hz1, hgs1, hhx, hm⟩ :=
        halfhour_dark_carbon E c p doy hod st hcond hz
      obtain ⟨stE, hdE, hzE, hgsE⟩ := ih st1 (by rw [hhx, hm]; exact hsun') hz1
      refine ⟨stE, ?_, hzE, ?_⟩
      · rw [dayloop_cons_ok E c p doy hod rest st st1 hh]
        exact hdE
      · rw [hgsE, hgs1]

/-- Claim C5, amended: with a non-C3 pathway selected, the run terminates
through the unrecoverable-error path (reporting the unimplemented-pathway
condition) at the first half hour with the sun up, and at that point all
six day-total carbon accumulators are still zero and the
stomatal-conductance day accumulator still holds its entry value — no
flux has been accumulated.  If no half hour of the day has the sun up,
the pathway check is never reached and the run completes (see the
counterexample). -/
theorem c4_pathway_fatal_before_accumulation (E : extern_fns) (c : control)
    (p : params) (doyArr : ℕ → ℚ) (f0 : fluxes) (s0 : state) (m0 : met)
    (cw0 : canopy_wk) (hpw : c.ps_pathway = .C4)
    (hsun : hasSun E (doyArr c.hour_idx) (List.range c.num_hlf_hrs)
      c.hour_idx m0) :
    ∃ stE, canopy E c p doyArr f0 s0 m0 cw0 =
        .error (.C4NotImplemented, stE)
      ∧ stE.f.gpp_gCm2 = 0 ∧ stE.f.npp_gCm2 = 0 ∧ stE.f.gpp = 0
      ∧ stE.f.npp = 0 ∧ stE.f.auto_resp = 0 ∧ stE.f.apar = 0
      ∧ stE.f.gs_mol_m2_sec = f0.gs_mol_m2_sec := by
  obtain ⟨stE, hd, hzE, hgsE⟩ := dayloop_C4_err E c p (doyArr c.hour_idx) hpw
    (List.range c.num_hlf_hrs)
    { cw := cw0,
      f := { zero_carbon_day_fluxes f0 with
        omega := E.zero_water (zero_carbon_day_fluxes f0).omega },
      s := s0, m := m0, iter := 0, hour_idx := c.hour_idx,
      sunlight_hrs := 0 }
    hsun ⟨rfl, rfl, rfl, rfl, rfl, rfl⟩
  exact ⟨stE, canopy_of_dayloop_err E c p doyArr f0 s0 m0 cw0 _ hd,
    hzE.1, hzE.2.1, hzE.2.2.1, hzE.2.2.2.1, hzE.2.2.2.2.1, hzE.2.2.2.2.2,
    hgsE⟩

/-- Witness for the amended claim C5 on the concrete two-half-hour day
whose sun comes up in half hour 1. -/
theorem c4_pathway_fatal_witness :
    ∃ stE, canopy E_c5b c_c5b pInit (fun _ => 1) fInit sInit mC1 cwInit =
        .error (.C4NotImplemented, stE)
      ∧ stE.f.gpp_gCm2 = 0 ∧ stE.f.npp_gCm2 = 0 ∧ stE.f.gpp = 0
      ∧ stE.f.npp = 0 ∧ stE.f.auto_resp = 0 ∧ stE.f.apar = 0
      ∧ stE.f.gs_mol_m2_sec = fInit.gs_mol_m2_sec := by
  apply c4_pathway_fatal_before_accumulation E_c5b c_c5b pInit (fun _ => 1)
    fInit sInit mC1 cwInit rfl
  rw [show List.range c_c5b.num_hlf_hrs = [0, 1] from rfl]
  rw [hasSun]
  right
  rw [hasSun]
  left
  constructor
  · norm_num [E_c5b, E_c1]
  · norm_num [E_c5b, E_c1, mC1]

lemma accumulate_day_gpp (p : params) :
    ∀ (cws : List canopy_wk) (f : fluxes),
      (accumulate_day p cws f).gpp_gCm2 =
        f.gpp_gCm2 + (cws.map canopy_wk.an_canopy).sum *
          (UMOL_TO_MOL * MOL_C_TO_GRAMS_C * SEC_2_HLFHR) := by
  intro cws
  induction cws with
  | nil => intro f; simp [accumulate_day]
  | cons cw rest ih =>
    intro f
    rw [show accumulate_day p (cw :: rest) f =
      accumulate_day p rest (sum_hourly_carbon_fluxes cw f p) from rfl, ih]
    simp only [sum_hourly_carbon_fluxes, List.map_cons, List.sum_cons]
    ring

lemma an_sum_binary (a : ℚ) (ha : a ≠ 0) :
    ∀ cws : List canopy_wk,
      (∀ c ∈ cws, c.an_canopy = a ∨ c.an_canopy = 0) →
      (cws.map canopy_wk.an_canopy).sum =
        ((cws.filter (fun c => decide (c.an_canopy = a))).length : ℚ) * a := by
  intro cws
  induction cws with
  | nil => simp
  | cons cw rest ih =>
    intro h
    have hx := h cw (List.mem_cons_self cw rest)
    have hrest := ih fun y hy => h y (List.mem_cons_of_mem cw hy)
    rcases hx with hxa | hx0
    · rw [List.map_cons, List.sum_cons, hrest, List.filter_cons]
      simp only [hxa, decide_eq_true_eq, if_true, decide_eq_true_eq,
        eq_self_iff_true, List.length_cons]
      push_cast
      ring
    · have ha' : ¬ (0 : ℚ) = a := fun h' => ha h'.symm
      rw [List.map_cons, List.sum_cons, hrest, List.filter_cons]
      simp [hx0, ha']

/-- Claim C6: each half hour `sum_hourly_carbon_fluxes` adds the canopy
assimilation converted by the fixed unit constants and the half-hour
duration to the day-total gross production, sets net production to gross
production times the carbon-use efficiency, sets autotrophic respiration
to gross minus net, and adds canopy APAR and conductance to their
day-total accumulators; consequently a day of all-zero canopy
assimilation accumulates exactly zero gross production, and a day whose
half hours have assimilation `a` (for `k` of them) or `0` accumulates
exactly `k` times the single-half-hour conversion of `a`. -/
theorem daily_carbon_accumulation (p : params) (f : fluxes)
    (cw : canopy_wk) (cws : List canopy_wk) (a : ℚ) :
    ((sum_hourly_carbon_fluxes cw f p).gpp_gCm2 =
        f.gpp_gCm2 + cw.an_canopy * UMOL_TO_MOL * MOL_C_TO_GRAMS_C *
          SEC_2_HLFHR
      ∧ (sum_hourly_carbon_fluxes cw f p).npp_gCm2 =
          (sum_hourly_carbon_fluxes cw f p).gpp_gCm2 * p.cue
      ∧ (sum_hourly_carbon_fluxes cw f p).gpp =
          (sum_hourly_carbon_fluxes cw f p).gpp_gCm2 * GRAM_C_2_TONNES_HA
      ∧ (sum_hourly_carbon_fluxes cw f p).npp =
          (sum_hourly_carbon_fluxes cw f p).npp_gCm2 * GRAM_C_2_TONNES_HA
      ∧ (sum_hourly_carbon_fluxes cw f p).auto_resp =
          (sum_hourly_carbon_fluxes cw f p).gpp -
            (sum_hourly_carbon_fluxes cw f p).npp
      ∧ (sum_hourly_carbon_fluxes cw f p).apar = f.apar + cw.apar_canopy
      ∧ (sum_hourly_carbon_fluxes cw f p).gs_mol_m2_sec =
          f.gs_mol_m2_sec + cw.gsc_canopy)
    ∧ ((∀ c ∈ cws, c.an_canopy = 0) →
        (accumulate_day p cws (zero_carbon_day_fluxes f)).gpp_gCm2 = 0)
    ∧ (a ≠ 0 → (∀ c ∈ cws, c.an_canopy = a ∨ c.an_canopy = 0) →
        (accumulate_day p cws (zero_carbon_day_fluxes f)).gpp_gCm2 =
          ((cws.filter (fun c => decide (c.an_canopy = a))).length : ℚ) *
            (a * UMOL_TO_MOL * MOL_C_TO_GRAMS_C * SEC_2_HLFHR)) := by
  refine ⟨⟨rfl, rfl, rfl, rfl, rfl, rfl, rfl⟩, ?_, ?_⟩
  · intro hz
    rw [accumulate_day_gpp]
    have : (cws.map canopy_wk.an_canopy).sum = 0 :=
      List.sum_eq_zero fun x hx => by
        obtain ⟨c, hc, hcx⟩ := List.mem_map.mp hx
        rw [← hcx]
        exact hz c hc
    rw [this]
    simp [zero_carbon_day_fluxes]
  · intro ha hbin
    rw [accumulate_day_gpp, an_sum_binary a ha cws hbin]
    simp only [zero_carbon_day_fluxes]
    ring

/-- Witness for claim C6 on concrete workspace lists: two zero hours give
zero gross production, and for the list with `an_canopy = 2` in two of
three half hours the total is the filter count times the one-hour
conversion of 2. -/
theorem daily_carbon_accumulation_witness :
    (sum_hourly_carbon_fluxes cwA fInit pInit).gpp_gCm2 =
      fInit.gpp_gCm2 + cwA.an_canopy * UMOL_TO_MOL * MOL_C_TO_GRAMS_C *
        SEC_2_HLFHR
    ∧ (accumulate_day pInit [cwInit, cwInit]
        (zero_carbon_day_fluxes fInit)).gpp_gCm2 = 0
    ∧ (accumulate_day pInit [cwA, cwInit, cwA]
        (zero_carbon_day_fluxes fInit)).gpp_gCm2 =
        (([cwA, cwInit, cwA].filter
            (fun c => decide (c.an_canopy = 2))).length : ℚ) *
          (2 * UMOL_TO_MOL * MOL_C_TO_GRAMS_C * SEC_2_HLFHR) := by
  refine ⟨(daily_carbon_accumulation pInit fInit cwA [] 0).1.1, ?_, ?_⟩
  · apply (daily_carbon_accumulation pInit fInit cwA [cwInit, cwInit] 0).2.1
    intro c hc
    rcases List.mem_cons.mp hc with h | hc2
    · rw [h]; rfl
    · rcases List.mem_cons.mp hc2 with h | hc3
      · rw [h]; rfl
      · exact absurd hc3 (List.not_mem_nil c)
  · apply (daily_carbon_accumulation pInit fInit cwA [cwA, cwInit, cwA]
      2).2.2 (by norm_num)
    intro c hc
    rcases List.mem_cons.mp hc with h | hc2
    · left; rw [h]; rfl
    · rcases List.mem_cons.mp hc2 with h | hc3
      · right; rw [h]; rfl
      · rcases List.mem_cons.mp hc3 with h | hc4
        · left; rw [h]; rfl
        · exact absurd hc4 (List.not_mem_nil c)

/-- Claim C8: when LAI > 0, the top-of-canopy nitrogen is the total
canopy nitrogen (leaf N content times leaf mass per area times LAI, with
leaf mass per area from specific leaf area and carbon fraction) times
`kn = 0.3` divided by `1 - exp (-kn * LAI)`; when LAI = 0 it is exactly 0
whatever the other arguments. -/
theorem top_of_canopy_leafn_formula (sla cfracts shootnc lai : ℝ) :
    (0 < lai → calculate_top_of_canopy_leafn sla cfracts shootnc lai =
      shootnc * (1 / sla * cfracts * KG_AS_G) * lai * 0.3 /
        (1 - Real.exp (-(0.3 : ℝ) * lai)))
    ∧ (lai = 0 → calculate_top_of_canopy_leafn sla cfracts shootnc lai = 0)
    := by
  constructor
  · intro h
    simp only [calculate_top_of_canopy_leafn]
    rw [if_pos h]
  · intro h
    simp only [calculate_top_of_canopy_leafn]
    rw [if_neg (by rw [h]; exact lt_irrefl 0)]

/-- Witness for claim C8 at LAI 2 and at LAI 0. -/
theorem top_of_canopy_leafn_formula_witness :
    ((0 : ℝ) < 2 ∧ calculate_top_of_canopy_leafn 1 1 1 2 =
      1 * (1 / 1 * 1 * KG_AS_G) * 2 * 0.3 /
        (1 - Real.exp (-(0.3 : ℝ) * 2)))
    ∧ ((0 : ℝ) = 0 ∧ calculate_top_of_canopy_leafn 1 1 1 0 = 0) :=
  ⟨⟨by norm_num, (top_of_canopy_leafn_formula 1 1 1 2).1 (by norm_num)⟩,
   ⟨rfl, (top_of_canopy_leafn_formula 1 1 1 0).2 rfl⟩⟩

/-- Claim C9: holding the other arguments fixed, the isothermal net
radiation is strictly decreasing in the vapour-pressure deficit (on the
valid range, where the derived vapour pressure stays non-negative and the
Kelvin air temperature is positive) and strictly increasing in the
absorbed shortwave radiation (for positive leaf absorptivity). -/
theorem leaf_net_rad_monotone (esat : ℝ → ℝ) (leaf_abs lai tair : ℝ) :
    (∀ vpd1 vpd2 sw_rad : ℝ, vpd1 < vpd2 → 0 ≤ esat tair - vpd2 →
      0 < tair + DEG_TO_KELVIN →
      calc_leaf_net_rad esat leaf_abs lai tair vpd2 sw_rad <
        calc_leaf_net_rad esat leaf_abs lai tair vpd1 sw_rad)
    ∧ (∀ vpd sw1 sw2 : ℝ, 0 < leaf_abs → sw1 < sw2 →
      calc_leaf_net_rad esat leaf_abs lai tair vpd sw1 <
        calc_leaf_net_rad esat leaf_abs lai tair vpd sw2) := by
  constructor
  · intro vpd1 vpd2 sw_rad h12 he2 hT
    simp only [calc_leaf_net_rad]
    apply sub_lt_sub_left
    have hexp : (0 : ℝ) < Real.exp (-(0.8 : ℝ) * lai) := Real.exp_pos _
    have hT4 : (0 : ℝ) < (tair + DEG_TO_KELVIN) ^ (4 : ℝ) :=
      Real.rpow_pos_of_pos hT _
    have hS : (0 : ℝ) < SIGMA := by norm_num [SIGMA]
    have hdiv : (esat tair - vpd2) / (tair + DEG_TO_KELVIN) <
        (esat tair - vpd1) / (tair + DEG_TO_KELVIN) := by
      gcongr
    have hx : (0 : ℝ) ≤ (esat tair - vpd2) / (tair + DEG_TO_KELVIN) :=
      div_nonneg he2 hT.le
    have hrpow : ((esat tair - vpd2) / (tair + DEG_TO_KELVIN)) ^
        ((1 : ℝ) / 7) <
        ((esat tair - vpd1) / (tair + DEG_TO_KELVIN)) ^ ((1 : ℝ) / 7) :=
      Real.rpow_lt_rpow hx hdiv (by norm_num)
    have hpos : (0 : ℝ) < SIGMA * (tair + DEG_TO_KELVIN) ^ (4 : ℝ) *
        ((0.8 : ℝ) * Real.exp (-(0.8 : ℝ) * lai)) := by positivity
    nlinarith [mul_lt_mul_of_pos_right hrpow hpos]
  · intro vpd sw1 sw2 hla hsw
    simp only [calc_leaf_net_rad]
    apply sub_lt_sub_right
    exact mul_lt_mul_of_pos_left hsw hla

/-- Witness for claim C9 at concrete arguments: air temperature 0 (Kelvin
temperature 273.15), saturation pressure 1, vapour deficits 0 and 1,
leaf absorptivity 1/2, shortwave 0 and 1. -/
theorem leaf_net_rad_monotone_witness :
    calc_leaf_net_rad (fun _ => 1) (1 / 2) 1 0 1 5 <
      calc_leaf_net_rad (fun _ => 1) (1 / 2) 1 0 0 5
    ∧ calc_leaf_net_rad (fun _ => 1) (1 / 2) 1 0 0 0 <
      calc_leaf_net_rad (fun _ => 1) (1 / 2) 1 0 0 1 :=
  ⟨(leaf_net_rad_monotone (fun _ => 1) (1 / 2) 1 0).1 0 1 5 (by norm_num)
      (by norm_num) (by norm_num [DEG_TO_KELVIN]),
   (leaf_net_rad_monotone (fun _ => 1) (1 / 2) 1 0).2 0 0 1 (by norm_num)
      (by norm_num)⟩

end GDAY
